import Mathlib

/-!
Verification development for the tunnelmole-service forwarding gateway.

The TypeScript sources embedded here are:
* `src/handlers/handle-request.ts` — the request dispatcher (buffered and
  streamed response handling, header sanitization, timeouts, client-abort
  cancellation);
* `src/handlers/request-logs-dashboard.ts` — the inspector dashboard
  (credential gate, token extraction, replay engine, HTML rendering);
* `src/repository/request-log-credentials-repository.ts` and the data model
  `src/model/request-log.ts`.

JavaScript runtime values that cross these functions (parsed JSON frames,
header maps) are modelled by an explicit `Json` type; `JSON.parse`,
`Buffer.from(·, 'base64')`, `Buffer#toString('utf8')` and the small string
utilities used by the handlers are given executable models.
-/

namespace Tunnelmole

/-- Left brace character, written via its code point. -/
def lbrace : Char := Char.ofNat 123

/-- Right brace character, written via its code point. -/
def rbrace : Char := Char.ofNat 125

/-- Apostrophe (single quote) character. -/
def squote : Char := Char.ofNat 39

/-- Backslash character. -/
def bslash : Char := Char.ofNat 92

/-- A JavaScript value produced by `JSON.parse`: `JSON.parse` can only yield
`null`, booleans, numbers, strings, arrays and objects (never `undefined`).
Numbers keep their raw lexeme, which is all the embedded handlers need. -/
inductive Json where
  | null
  | bool (b : Bool)
  | num (lexeme : String)
  | str (s : String)
  | arr (elems : List Json)
  | obj (fields : List (String × Json))

/-- JavaScript truthiness of a parsed JSON value (`undefined` cannot occur
after a successful `JSON.parse`). A number is falsy exactly when it denotes
zero; a JSON number lexeme denotes zero iff its digits are all `0`. -/
def jsTruthy : Json → Bool
  | .null => false
  | .bool b => b
  | .str s => s ≠ ""
  | .num lexeme => ¬ (lexeme.data.all (fun c => c ≠ '1' ∧ c ≠ '2' ∧ c ≠ '3' ∧ c ≠ '4' ∧ c ≠ '5' ∧ c ≠ '6' ∧ c ≠ '7' ∧ c ≠ '8' ∧ c ≠ '9'))
  | .arr _ => true
  | .obj _ => true

/-- `a || b` on a possibly-absent JavaScript field: an absent field
(`none`, i.e. `undefined`) or a falsy value yields the default. -/
def jsOr (v : Option Json) (dflt : Json) : Json :=
  match v with
  | none => dflt
  | some j => if jsTruthy j then j else dflt

/-- Property read `obj.k` on a JavaScript object field list: the value of
the first binding of `k` (object keys are unique, later assignments
overwrite in place). Yields `none` (`undefined`) when the key is absent. -/
def objGet (fields : List (String × Json)) (k : String) : Option Json :=
  (fields.find? (fun p => p.1 = k)).map (fun p => p.2)

/-- Property read `v.k` on an arbitrary JavaScript value: only objects have
own properties here; reading a property of a non-object yields `undefined`
(`none`). -/
def jGet (v : Json) (k : String) : Option Json :=
  match v with
  | .obj fields => objGet fields k
  | _ => none

/-- Property assignment `obj[k] = v` on a JavaScript object field list:
overwrites the first binding of `k` in place, else appends. -/
def objSet (fields : List (String × Json)) (k : String) (v : Json) : List (String × Json) :=
  match fields with
  | [] => [(k, v)]
  | (k', v') :: rest => if k' = k then (k', v) :: rest else (k', v') :: objSet rest k v

/-- Property assignment `target[k] = v` on an arbitrary JavaScript value in
sloppy mode: assigning to a property of a primitive is silently ignored;
assigning to `null`/`undefined` throws before this function is reached. -/
def jsPropSet (target : Json) (k : String) (v : Json) : Json :=
  match target with
  | .obj fields => .obj (objSet fields k v)
  | other => other

/-- JavaScript strict equality `x === s` between a possibly-undefined
property read and a string literal: true only when the value is that
string. -/
def jsStrictEqStr (v : Option Json) (s : String) : Bool :=
  match v with
  | some (.str t) => t = s
  | _ => false

/-- The natural number denoted by a list of decimal digits. -/
def digitsToNat (l : List Char) : Nat :=
  l.foldl (fun n c => n * 10 + (c.toNat - 48)) 0

/-- Reads a JSON number field as a natural number (the status codes the
handlers consume). Yields `none` for absent, non-numeric or non-natural
values. -/
def jNatField (v : Option Json) : Option Nat :=
  match v with
  | some (.num lexeme) =>
    if lexeme ≠ "" ∧ lexeme.data.all (fun c => c.isDigit) then some (digitsToNat lexeme.data)
    else none
  | _ => none

/-- The base64 alphabet value of a character, `none` for characters outside
the alphabet (Node's forgiving decoder skips those, including `=`). -/
def b64Val (c : Char) : Option Nat :=
  if 'A' ≤ c ∧ c ≤ 'Z' then some (c.toNat - 65)
  else if 'a' ≤ c ∧ c ≤ 'z' then some (c.toNat - 97 + 26)
  else if '0' ≤ c ∧ c ≤ '9' then some (c.toNat - 48 + 52)
  else if c = '+' then some 62
  else if c = '/' then some 63
  else none

/-- Regroups a list of base64 sextets into bytes: each full group of four
sextets yields three bytes; a trailing group of three yields two, of two
yields one, and a lone trailing sextet is dropped. -/
def b64Bytes : List Nat → List Nat
  | a :: b :: c :: d :: rest =>
    (a * 4 + b / 16) :: ((b % 16) * 16 + c / 4) :: ((c % 4) * 64 + d) :: b64Bytes rest
  | [a, b, c] => [a * 4 + b / 16, (b % 16) * 16 + c / 4]
  | [a, b] => [a * 4 + b / 16]
  | _ => []

/-- Model of Node's `Buffer.from(s, 'base64')` on inputs without interior
padding: characters outside the base64 alphabet (including `=` padding) are
skipped, then sextets are regrouped into bytes. -/
def decodeBase64 (s : String) : List Nat :=
  b64Bytes (s.data.filterMap b64Val)

/-- Whether a byte is a UTF-8 continuation byte (`10xxxxxx`). -/
def isCont (b : Nat) : Bool := 128 ≤ b ∧ b < 192

/-- The Unicode replacement character emitted by lossy UTF-8 decoding. -/
def replChar : Char := Char.ofNat 0xFFFD

/-- Converts a decoded code point to a `Char`, mapping values that are not
scalar values (surrogates, out of range) to the replacement character. -/
def codepointChar (n : Nat) : Char :=
  if n.isValidChar then Char.ofNat n else replChar

/-- Lossy UTF-8 decoding of a byte list (worker, fuelled by the input
length so that recursion is structural): well-formed sequences decode to
their code points, malformed bytes become replacement characters and
decoding resumes at the offending byte. -/
def utf8CharsAux : Nat → List Nat → List Char
  | 0, _ => []
  | _ + 1, [] => []
  | fuel + 1, b :: rest =>
    if b < 128 then codepointChar b :: utf8CharsAux fuel rest
    else if 192 ≤ b ∧ b < 224 then
      match rest with
      | c1 :: rest' =>
        if isCont c1 then codepointChar ((b % 32) * 64 + c1 % 64) :: utf8CharsAux fuel rest'
        else replChar :: utf8CharsAux fuel (c1 :: rest')
      | [] => [replChar]
    else if 224 ≤ b ∧ b < 240 then
      match rest with
      | c1 :: c2 :: rest' =>
        if isCont c1 ∧ isCont c2 then
          codepointChar (((b % 16) * 64 + c1 % 64) * 64 + c2 % 64) :: utf8CharsAux fuel rest'
        else replChar :: utf8CharsAux fuel (c1 :: c2 :: rest')
      | [c1] => replChar :: utf8CharsAux fuel [c1]
      | [] => [replChar]
    else if 240 ≤ b ∧ b < 248 then
      match rest with
      | c1 :: c2 :: c3 :: rest' =>
        if isCont c1 ∧ isCont c2 ∧ isCont c3 then
          codepointChar ((((b % 8) * 64 + c1 % 64) * 64 + c2 % 64) * 64 + c3 % 64)
            :: utf8CharsAux fuel rest'
        else replChar :: utf8CharsAux fuel (c1 :: c2 :: c3 :: rest')
      | [c1, c2] => replChar :: utf8CharsAux fuel [c1, c2]
      | [c1] => replChar :: utf8CharsAux fuel [c1]
      | [] => [replChar]
    else replChar :: utf8CharsAux fuel rest

/-- Lossy UTF-8 decoding of a byte list, modelling Node's
`Buffer#toString('utf8')` (every step consumes at least one byte, so the
input length bounds the recursion depth). -/
def utf8Chars (bytes : List Nat) : List Char :=
  utf8CharsAux (bytes.length + 1) bytes

/-- Model of `buffer.toString('utf8')`. -/
def bufToUtf8 (bytes : List Nat) : String :=
  String.mk (utf8Chars bytes)

/-- Skips JSON insignificant whitespace. -/
def skipWs : List Char → List Char
  | [] => []
  | c :: rest => if c = ' ' ∨ c = '\t' ∨ c = '\n' ∨ c = '\r' then skipWs rest else c :: rest

/-- Hexadecimal digit value. -/
def hexVal (c : Char) : Option Nat :=
  if '0' ≤ c ∧ c ≤ '9' then some (c.toNat - 48)
  else if 'a' ≤ c ∧ c ≤ 'f' then some (c.toNat - 97 + 10)
  else if 'A' ≤ c ∧ c ≤ 'F' then some (c.toNat - 65 + 10)
  else none

/-- Parses the body of a JSON string after its opening quote (worker,
fuelled by the input length so that recursion is structural), handling the
JSON escape sequences; returns the decoded characters and the input
remaining after the closing quote. Surrogate pairing of `\uXXXX` escapes is
not recombined (the code points are kept individually). -/
def parseStringBodyAux : Nat → List Char → Option (List Char × List Char)
  | 0, _ => none
  | _ + 1, [] => none
  | fuel + 1, c :: rest =>
    if c = '"' then some ([], rest)
    else if c = bslash then
      match rest with
      | [] => none
      | e :: rest' =>
        if e = 'u' then
          match rest' with
          | h1 :: h2 :: h3 :: h4 :: rest'' =>
            match hexVal h1, hexVal h2, hexVal h3, hexVal h4 with
            | some a, some b, some cc, some d =>
              (parseStringBodyAux fuel rest'').map
                (fun p => (codepointChar (((a * 16 + b) * 16 + cc) * 16 + d) :: p.1, p.2))
            | _, _, _, _ => none
          | _ => none
        else
          match
            (if e = '"' then some '"'
             else if e = bslash then some bslash
             else if e = '/' then some '/'
             else if e = 'b' then some (Char.ofNat 8)
             else if e = 'f' then some (Char.ofNat 12)
             else if e = 'n' then some '\n'
             else if e = 'r' then some '\r'
             else if e = 't' then some '\t'
             else none) with
          | some decoded => (parseStringBodyAux fuel rest').map (fun p => (decoded :: p.1, p.2))
          | none => none
    else if c.toNat < 32 then none
    else (parseStringBodyAux fuel rest).map (fun p => (c :: p.1, p.2))

/-- Parses the body of a JSON string after its opening quote (every step
consumes at least one character, so the input length bounds the recursion
depth). -/
def parseStringBody (cs : List Char) : Option (List Char × List Char) :=
  parseStringBodyAux (cs.length + 1) cs

/-- Splits the longest prefix of decimal digits. -/
def takeDigits : List Char → (List Char × List Char)
  | [] => ([], [])
  | c :: rest =>
    if c.isDigit then
      let p := takeDigits rest
      (c :: p.1, p.2)
    else ([], c :: rest)

/-- Parses a JSON number lexeme `-?(0|[1-9][0-9]*)(\.[0-9]+)?([eE][+-]?[0-9]+)?`,
returning the raw lexeme and the remaining input. -/
def parseNumberLexeme (cs : List Char) : Option (List Char × List Char) :=
  let (sign, cs1) :=
    match cs with
    | '-' :: rest => (['-'], rest)
    | other => (([] : List Char), other)
  let (intPart, cs2) := takeDigits cs1
  let intOk : Bool :=
    match intPart with
    | [] => false
    | ['0'] => true
    | '0' :: _ => false
    | _ => true
  if ¬ intOk then none
  else
    let fracRes : Option (List Char × List Char) :=
      match cs2 with
      | '.' :: rest =>
        let p := takeDigits rest
        if p.1 = [] then none else some ('.' :: p.1, p.2)
      | other => some ([], other)
    match fracRes with
    | none => none
    | some (fracPart, cs3) =>
      let expRes : Option (List Char × List Char) :=
        match cs3 with
        | c :: rest =>
          if c = 'e' ∨ c = 'E' then
            match rest with
            | s :: rest' =>
              if s = '+' ∨ s = '-' then
                let p := takeDigits rest'
                if p.1 = [] then none else some (c :: s :: p.1, p.2)
              else
                let p := takeDigits (s :: rest')
                if p.1 = [] then none else some (c :: p.1, p.2)
            | [] => none
          else some ([], c :: rest)
        | [] => some ([], [])
      match expRes with
      | none => none
      | some (expPart, cs4) => some (sign ++ intPart ++ fracPart ++ expPart, cs4)

mutual

/-- Parses one JSON value; `fuel` bounds recursion depth (instantiated with
the input length, which dominates any nesting depth). -/
def parseValue : Nat → List Char → Option (Json × List Char)
  | 0, _ => none
  | fuel + 1, cs =>
    match skipWs cs with
    | [] => none
    | c :: rest =>
      if c = lbrace then parseObjFields fuel true [] rest
      else if c = '[' then parseArrElems fuel true [] rest
      else if c = '"' then (parseStringBody rest).map (fun p => (.str (String.mk p.1), p.2))
      else if c = 't' then
        match rest with
        | 'r' :: 'u' :: 'e' :: rest' => some (.bool true, rest')
        | _ => none
      else if c = 'f' then
        match rest with
        | 'a' :: 'l' :: 's' :: 'e' :: rest' => some (.bool false, rest')
        | _ => none
      else if c = 'n' then
        match rest with
        | 'u' :: 'l' :: 'l' :: rest' => some (.null, rest')
        | _ => none
      else
        (parseNumberLexeme (c :: rest)).map (fun p => (.num (String.mk p.1), p.2))

/-- Parses the members of a JSON object after its opening brace (or after a
separating comma when `first` is false). Duplicate keys overwrite in place,
as in JavaScript. -/
def parseObjFields : Nat → Bool → List (String × Json) → List Char → Option (Json × List Char)
  | 0, _, _, _ => none
  | fuel + 1, first, acc, cs =>
    match skipWs cs with
    | [] => none
    | c :: rest =>
      if first ∧ c = rbrace then some (.obj acc, rest)
      else if c = '"' then
        match parseStringBody rest with
        | none => none
        | some (keyChars, afterKey) =>
          match skipWs afterKey with
          | ':' :: afterColon =>
            match parseValue fuel afterColon with
            | none => none
            | some (v, afterVal) =>
              let acc' := objSet acc (String.mk keyChars) v
              match skipWs afterVal with
              | ',' :: afterComma => parseObjFields fuel false acc' afterComma
              | d :: afterBrace =>
                if d = rbrace then some (.obj acc', afterBrace) else none
              | [] => none
          | _ => none
      else none

/-- Parses the elements of a JSON array after its opening bracket (or after
a separating comma when `first` is false). -/
def parseArrElems : Nat → Bool → List Json → List Char → Option (Json × List Char)
  | 0, _, _, _ => none
  | fuel + 1, first, acc, cs =>
    match skipWs cs with
    | [] => none
    | c :: rest =>
      if first ∧ c = ']' then some (.arr acc.reverse, rest)
      else
        match parseValue fuel (c :: rest) with
        | none => none
        | some (v, afterVal) =>
          match skipWs afterVal with
          | ',' :: afterComma => parseArrElems fuel false (v :: acc) afterComma
          | ']' :: afterBracket => some (.arr (v :: acc).reverse, afterBracket)
          | _ => none

end

/-- Model of `JSON.parse`: `none` models a thrown `SyntaxError`. -/
def parseJson (s : String) : Option Json :=
  match parseValue (s.length + 1) s.data with
  | some (v, rest) => if skipWs rest = [] then some v else none
  | none => none

/-- JavaScript truthiness of a possibly-absent property read (`undefined`
is falsy). -/
def jTruthyOpt (v : Option Json) : Bool :=
  match v with
  | none => false
  | some j => jsTruthy j

/-- Model of `String.prototype.toLowerCase` for the ASCII strings (header
names, scheme prefixes) the handlers lowercase. -/
def strToLower (s : String) : String :=
  String.mk (s.data.map Char.toLower)

/-- The letters the `capitalize` npm package treats as word characters
(ASCII letters plus the Latin-1/Latin-Extended-A letter range). -/
def isCapWordLetter (c : Char) : Bool :=
  ('a' ≤ c ∧ c ≤ 'z') ∨ ('A' ≤ c ∧ c ≤ 'Z') ∨ (0xC0 ≤ c.toNat ∧ c.toNat ≤ 0x17F)

/-- Uppercases every word letter that starts the string or follows a
non-word character; the flag records whether the previous character was a
word letter. -/
def capitalizeWordsAux : Bool → List Char → List Char
  | _, [] => []
  | prevLetter, c :: rest =>
    (if ¬ prevLetter ∧ isCapWordLetter c then c.toUpper else c)
      :: capitalizeWordsAux (isCapWordLetter c) rest

/-- Model of `capitalize.words` from the `capitalize` npm package, as used
on header names (uppercasing is ASCII, which covers them). -/
def capitalizeWords (s : String) : String :=
  String.mk (capitalizeWordsAux false s.data)

/-- The base64 alphabet character for a sextet. -/
def b64Chr (n : Nat) : Char :=
  if n < 26 then Char.ofNat (65 + n)
  else if n < 52 then Char.ofNat (97 + n - 26)
  else if n < 62 then Char.ofNat (48 + n - 52)
  else if n = 62 then '+'
  else '/'

/-- Standard base64 encoding of a byte list, with padding (model of
`Buffer#toString('base64')`). -/
def b64Encode : List Nat → List Char
  | b1 :: b2 :: b3 :: rest =>
    b64Chr (b1 / 4) :: b64Chr ((b1 % 4) * 16 + b2 / 16)
      :: b64Chr ((b2 % 16) * 4 + b3 / 64) :: b64Chr (b3 % 64) :: b64Encode rest
  | [b1, b2] => [b64Chr (b1 / 4), b64Chr ((b1 % 4) * 16 + b2 / 16), b64Chr ((b2 % 16) * 4), '=']
  | [b1] => [b64Chr (b1 / 4), b64Chr ((b1 % 4) * 16), '=', '=']
  | [] => []

/-- Model of `Buffer.from(s).toString('base64')` for ASCII input. -/
def encodeBase64 (bytes : List Nat) : String :=
  String.mk (b64Encode bytes)

/-- `handle-request.ts` line 15: the sentinel body stored for streamed
responses, base64-encoded. -/
def STREAMED_RESPONSE_BODY_PLACEHOLDER : String :=
  encodeBase64 ("[streamed response: body streamed directly to client]".data.map Char.toNat)

/-- `handle-request.ts` line 14: the buffered-dispatch cleanup delay handed
to `setTimeout`, in milliseconds. The name says ten minutes; the value is
300000 ms = 5 minutes. -/
def tenMinutesInMilliseconds : Nat := 300000

/-- `handle-request.ts` line 217: the hop-by-hop headers stripped from
forwarded response headers. -/
def forbiddenResponseHeaders : List String := ["transfer-encoding", "content-length"]

/-- `sanitizeForwardedResponseHeaders` (handle-request.ts lines 215-243):
copies the header entries whose lowercased name is not forbidden (the
`hasOwnProperty` and `typeof value === 'undefined'` guards are vacuous for
fields of a parsed JSON object, which is what reaches this function).
`sanitizeBase` is the copy loop (lines 216-236); `none` for `headers`
models a missing or non-object argument, which skips the loop;
`sanitizeForwardedResponseHeaders` adds the optional `content-length`
(lines 238-240) on top. -/
def sanitizeBase (headers : Option (List (String × Json))) : List (String × Json) :=
  match headers with
  | some fields =>
    fields.foldl
      (fun acc p =>
        if strToLower p.1 ∈ forbiddenResponseHeaders then acc
        else objSet acc p.1 p.2)
      []
  | none => []

/-- The optional re-addition of `content-length`
(handle-request.ts lines 238-240) on top of the copy loop. -/
def sanitizeForwardedResponseHeaders (headers : Option (List (String × Json)))
    (bodyLength : Option Nat) : List (String × Json) :=
  match bodyLength with
  | some len => objSet (sanitizeBase headers) "content-length" (.str (Nat.repr len))
  | none => sanitizeBase headers

/-- The field list a JavaScript `for (const name in headers)` loop
enumerates when `headers && typeof headers === 'object'` holds: objects
give their fields, arrays their index/element pairs; anything else fails
the guard. -/
def headerEntries : Json → Option (List (String × Json))
  | .obj fields => some fields
  | .arr elems => some (((List.range elems.length).zip elems).map (fun p => (Nat.repr p.1, p.2)))
  | _ => none

/-- The sanitized header list the stream-start branch computes
(handle-request.ts lines 106-109): `startMessage.headers || {}`, inject
`x-forwarded-for`, sanitize without a body length. -/
def streamStartSanitizedHeaders (headersField : Option Json) (ip : String) :
    List (String × Json) :=
  sanitizeForwardedResponseHeaders
    (headerEntries (jsPropSet (jsOr headersField (Json.obj [])) "x-forwarded-for" (.str ip)))
    none

/-- The sanitized header list the buffered branch computes
(handle-request.ts lines 152-154): inject `x-forwarded-for` into the
frame's headers, sanitize with the decoded body's byte length. -/
def bufferedSanitizedHeaders (headersValue : Json) (ip : String) (bodyLength : Nat) :
    List (String × Json) :=
  sanitizeForwardedResponseHeaders
    (headerEntries (jsPropSet headersValue "x-forwarded-for" (.str ip)))
    (some bodyLength)

/-- The observable state of the Express `Response` a dispatch drives.
`statusSets` records each `response.status(...)` call (with the decoded
numeric argument); `headerMap` the headers set so far; `writes` the chunks
written by `response.write`; `sentBody` the body passed to
`response.send`. -/
structure Resp where
  statusSets : List (Option Nat)
  headersSent : Bool
  ended : Bool
  headerMap : List (String × Json)
  writes : List (List Nat)
  sentBody : Option (List Nat)

/-- A fresh Express response. -/
def Resp.init : Resp := ⟨[], false, false, [], [], none⟩

/-- Node's `setHeader`: overwrites a header case-insensitively (keeping the
position and adopting the new spelling), else appends. -/
def nodeSetHeader : List (String × Json) → String → Json → List (String × Json)
  | [], k, v => [(k, v)]
  | (k', v') :: rest, k, v =>
    if strToLower k' = strToLower k then (k, v) :: rest
    else (k', v') :: nodeSetHeader rest k v

/-- `response.status(code)`: records the status (a pure property set, legal
even after headers are flushed). -/
def respStatus (r : Resp) (code : Option Nat) : Resp :=
  { r with statusSets := r.statusSets ++ [code] }

/-- `response.header(name, value)`: throws (`none`) once headers have been
sent, as Node's `ERR_HTTP_HEADERS_SENT`. -/
def respSetHeader (r : Resp) (name : String) (v : Json) : Option Resp :=
  if r.headersSent then none
  else some { r with headerMap := nodeSetHeader r.headerMap name v }

/-- `response.flushHeaders()`. -/
def respFlushHeaders (r : Resp) : Resp := { r with headersSent := true }

/-- `response.write(chunk)`: sends headers implicitly and appends the
chunk; writing after `end` only raises an asynchronous error, so it changes
nothing observable here. -/
def respWrite (r : Resp) (chunk : List Nat) : Resp :=
  if r.ended then r
  else { r with writes := r.writes ++ [chunk], headersSent := true }

/-- `response.end()`. -/
def respEnd (r : Resp) : Resp := { r with ended := true, headersSent := true }

/-- `response.send(body)`: throws (`none`) when headers were already sent
(Express sets headers inside `send`), else delivers the whole body and
ends the response. -/
def respSend (r : Resp) (body : List Nat) : Option Resp :=
  if r.headersSent then none
  else some { r with sentBody := some body, ended := true, headersSent := true }

/-- An outbound control-channel frame (`connection.websocket.sendMessage`
argument). -/
inductive OutFrame where
  | forwardedRequest (requestId url method : String) (headers : List (String × Json))
      (body : String) (responseMode : Option String)
  | cancelForwardedRequest (requestId : String)

/-- The fields `persistRequestLog` (handle-request.ts lines 77-94) stores
for the response side of a request log. -/
structure PersistedLog where
  responseStatus : Option Nat
  responseHeaders : List (String × Json)
  responseBody : String

/-- The per-dispatch state captured by the `handleRequest` closure:
the Express response, the `listenerRemoved` / `streamingCompleted` /
`streamingHeaders` / `streamingStatusCode` variables of lines 63-66, the
request logs persisted so far, the frames sent to the peer, and whether
anything closed the peer connection (nothing in the dispatcher does). -/
structure DState where
  resp : Resp
  listenerRemoved : Bool
  streamingCompleted : Bool
  streamingHeaders : Option (List (String × Json))
  streamingStatusCode : Option Nat
  persisted : List PersistedLog
  sentFrames : List OutFrame
  peerClosed : Bool

/-- The dispatch state just after `handleRequest` subscribed the handler. -/
def DState.init : DState := ⟨Resp.init, false, false, none, none, [], [], false⟩

/-- `removeForwardedResponseHandler` (handle-request.ts lines 68-75):
unsubscribes the dispatch's message listener once. -/
def removeForwardedResponseHandler (st : DState) : DState :=
  if st.listenerRemoved then st else { st with listenerRemoved := true }

/-- `persistRequestLog` (handle-request.ts lines 77-94): fire-and-forget
insertion of a request log (persistence failures only log). -/
def persistRequestLog (st : DState) (status : Option Nat)
    (headers : List (String × Json)) (body : String) : DState :=
  { st with persisted := st.persisted ++ [⟨status, headers, body⟩] }

/-- The `for (const name in sanitizedHeaders)` loop of the response
handler: sets each header under its `capitalize.words` name;
`Except.error` carries the state at a thrown `ERR_HTTP_HEADERS_SENT`. -/
def setHeadersLoop (st : DState) (headers : List (String × Json)) : Except DState DState :=
  match headers with
  | [] => .ok st
  | (name, v) :: rest =>
    match respSetHeader st.resp (capitalizeWords name) v with
    | some r => setHeadersLoop { st with resp := r } rest
    | none => .error st

/-- The body of the `try` block of `forwardedResponseHandler`
(handle-request.ts lines 98-172) on an already-parsed message.
`Except.error st` is a raised exception with the mutations made before the
throw still applied; `Except.ok st` is normal completion or an early
`return`. Statement-by-statement: drop frames whose `requestId` does not
strictly equal the dispatch's id; in stream mode handle
`forwardedResponseStreamStart` (record sanitized headers and status, set
status, set each header — throws if headers were already sent — then
flush) and `forwardedResponseStreamChunk` (decode `body || ''`, write a
non-empty chunk, and on a truthy `isFinal` end the response, unsubscribe
and persist the placeholder log); in any mode handle `forwardedResponse`
(inject `x-forwarded-for` — reading `.headers` of `undefined`/`null`
throws — decode the base64 body — `Buffer.from` of a non-string throws —
sanitize, set status and headers, send, persist, unsubscribe). -/
def handlerCore (requestId ip : String) (shouldStream : Bool) (msg : Json)
    (st : DState) : Except DState DState :=
  if ¬ jsStrictEqStr (jGet msg "requestId") requestId then .ok st
  else if shouldStream ∧ jsStrictEqStr (jGet msg "type") "forwardedResponseStreamStart" then
    let sanitized := streamStartSanitizedHeaders (jGet msg "headers") ip
    let st := { st with
      streamingHeaders := some sanitized,
      streamingStatusCode := jNatField (jGet msg "statusCode") }
    let st := { st with resp := respStatus st.resp (jNatField (jGet msg "statusCode")) }
    match setHeadersLoop st sanitized with
    | .error st' => .error st'
    | .ok st' => .ok { st' with resp := respFlushHeaders st'.resp }
  else if shouldStream ∧ jsStrictEqStr (jGet msg "type") "forwardedResponseStreamChunk" then
    match jsOr (jGet msg "body") (.str "") with
    | .str bodyStr =>
      let chunk := decodeBase64 bodyStr
      let st := if chunk.length > 0 then { st with resp := respWrite st.resp chunk } else st
      if jTruthyOpt (jGet msg "isFinal") then
        let st := { st with streamingCompleted := true }
        let st := { st with resp := respEnd st.resp }
        let st := removeForwardedResponseHandler st
        let status :=
          match st.streamingStatusCode with
          | some n => if n = 0 then 200 else n
          | none => 200
        .ok (persistRequestLog st (some status) (st.streamingHeaders.getD [])
          STREAMED_RESPONSE_BODY_PLACEHOLDER)
      else .ok st
    | _ => .error st
  else if jsStrictEqStr (jGet msg "type") "forwardedResponse" then
    match jGet msg "headers" with
    | none => .error st
    | some Json.null => .error st
    | some headersValue =>
      match jGet msg "body" with
      | some (Json.str bodyStr) =>
        let responseBody := decodeBase64 bodyStr
        let sanitized := bufferedSanitizedHeaders headersValue ip responseBody.length
        let st := { st with resp := respStatus st.resp (jNatField (jGet msg "statusCode")) }
        match setHeadersLoop st sanitized with
        | .error st' => .error st'
        | .ok st' =>
          match respSend st'.resp responseBody with
          | none => .error st'
          | some r =>
            let st'' := persistRequestLog { st' with resp := r }
              (jNatField (jGet msg "statusCode")) sanitized bodyStr
            .ok (removeForwardedResponseHandler st'')
      | _ => .error st
  else .ok st

/-- `forwardedResponseHandler` (handle-request.ts lines 96-179) on an
inbound text message: `JSON.parse` the text and run the handler body; the
`catch` block logs and calls `removeForwardedResponseHandler`. -/
def forwardedResponseHandler (requestId ip : String) (shouldStream : Bool)
    (text : String) (st : DState) : DState :=
  match parseJson text with
  | none => removeForwardedResponseHandler st
  | some msg =>
    match handlerCore requestId ip shouldStream msg st with
    | .ok st' => st'
    | .error st' => removeForwardedResponseHandler st'

/-- One dispatch's subscription on a peer connection: its request id, its
response mode, and its closure state. -/
structure DispatchSub where
  requestId : String
  shouldStream : Bool
  st : DState

/-- The peer connection's inbound fan-out: every listener still subscribed
receives every text message, in order; unsubscribed listeners receive
nothing. -/
def deliverText (ip text : String) (subs : List DispatchSub) : List DispatchSub :=
  subs.map (fun d =>
    if d.st.listenerRemoved then d
    else { d with st := forwardedResponseHandler d.requestId ip d.shouldStream text d.st })

/-- The `response.on('close', ...)` callback installed for stream-mode
dispatches (handle-request.ts lines 192-209): if streaming already
completed, do nothing; otherwise send `cancelForwardedRequest{requestId}`
(a send failure is only logged) and, in the `finally`, unsubscribe. -/
def streamCloseHandler (requestId : String) (st : DState) : DState :=
  if st.streamingCompleted then st
  else
    let st := { st with sentFrames := st.sentFrames ++ [OutFrame.cancelForwardedRequest requestId] }
    removeForwardedResponseHandler st

/-- The `setTimeout` callback armed for buffered dispatches
(handle-request.ts lines 186-188): it only removes the listener. -/
def bufferedTimeoutCallback (st : DState) : DState :=
  removeForwardedResponseHandler st

/-- The externally visible setup steps of `handleRequest`, in program
order. -/
inductive DispatchSetupAction where
  | sendForwardedRequest
  | subscribeResponseHandler
  | armBufferedTimeout
  | registerCloseHandler
deriving DecidableEq, Repr, BEq

/-- The order in which `handleRequest` performs its setup steps once a
connection is found: `sendMessage(forwardedRequest)` at line 61, then
`connection.websocket.on('message', forwardedResponseHandler)` at line
182, then either the buffered timeout (lines 184-189) or the close handler
(lines 191-210). -/
def handleRequestSetupActions (shouldStream : Bool) : List DispatchSetupAction :=
  [.sendForwardedRequest, .subscribeResponseHandler]
    ++ (if shouldStream then [.registerCloseHandler] else [.armBufferedTimeout])

/-- What `handleRequest` writes to the client during setup and whether an
exception escapes it. -/
structure HandleRequestOutcome where
  statusWritten : Option Nat
  bodyWritten : Option String
  exceptionEscaped : Bool
  actions : List DispatchSetupAction

/-- The setup phase of `handleRequest` (handle-request.ts lines 17-212):
no connection for the hostname → 404 with a text body (lines 24-28);
otherwise `sendMessage` runs outside any try/catch, so a synchronous send
failure escapes as an exception with nothing written and no listener yet
subscribed; on success the remaining setup steps run in order. -/
def handleRequestRun (hostname : String) (connFound sendOk shouldStream : Bool) :
    HandleRequestOutcome :=
  if ¬ connFound then
    ⟨some 404, some ("No matching tunnelmole domain for " ++ hostname), false, []⟩
  else if ¬ sendOk then
    ⟨none, none, true, [.sendForwardedRequest]⟩
  else
    ⟨none, none, false, handleRequestSetupActions shouldStream⟩

/-- The `ForwardedRequestMessage` wire shape. The interface file itself is
not among the provided sources; its shape is fixed by its two construction
sites — handle-request.ts lines 43-51, which set every field including
`responseMode`, and request-logs-dashboard.ts lines 443-450, which omit
`responseMode` — so `responseMode` is an optional field. -/
structure ForwardedRequestMessage where
  requestId : String
  type : String
  url : String
  method : String
  headers : List (String × Json)
  body : String
  responseMode : Option String

/-- The `RequestLog` model (src/model/request-log.ts): optional
store-assigned id, request data, and the recorded response. -/
structure RequestLog where
  id : Option Nat
  hostname : String
  path : String
  method : String
  requestHeaders : List (String × Json)
  requestBody : String
  responseStatus : Option Nat
  responseHeaders : List (String × Json)
  responseBody : String
  createdAt : Option String

/-- request-logs-dashboard.ts line 431: the replay deadline in
milliseconds. -/
def REPLAY_TIMEOUT_MS : Nat := 30000

/-- The synthetic frame `replayRequestThroughTunnel` builds
(request-logs-dashboard.ts lines 443-450): the stored method, path,
headers and base64 body under a fresh request id; the object literal has
no `responseMode` property. -/
def replayForwardedRequest (log : RequestLog) (requestId : String) : ForwardedRequestMessage :=
  { requestId := requestId
    type := "forwardedRequest"
    url := log.path
    method := log.method
    headers := log.requestHeaders
    body := log.requestBody
    responseMode := none }

/-- The state of one replay's promise and listener
(request-logs-dashboard.ts lines 441-487): whether the promise settled
(first settlement wins), whether the listener was removed, and whether the
timeout was cleared. -/
structure ReplayState where
  settled : Option (Except String Json)
  listenerRemoved : Bool
  timeoutCleared : Bool

/-- A replay just after `sendMessage(forwardedRequest)` succeeded. -/
def ReplayState.init : ReplayState := ⟨none, false, false⟩

/-- A promise settles only once. -/
def settleOnce (cur : Option (Except String Json)) (v : Except String Json) :
    Option (Except String Json) :=
  match cur with
  | some r => some r
  | none => some v

/-- `cleanup` (request-logs-dashboard.ts lines 452-455): remove the
listener and clear the timeout. -/
def replayCleanup (st : ReplayState) : ReplayState :=
  { st with listenerRemoved := true, timeoutCleared := true }

/-- The replay timeout callback (request-logs-dashboard.ts lines 457-460):
after `REPLAY_TIMEOUT_MS`, clean up and reject with the timeout error. -/
def replayTimeoutCallback (st : ReplayState) : ReplayState :=
  let st := replayCleanup st
  { st with settled := settleOnce st.settled (.error "Timed out while waiting for replay response.") }

/-- The replay's message listener (request-logs-dashboard.ts lines
462-477): parse failures are logged and otherwise ignored; a
`forwardedResponse` frame with the replay's request id cleans up and
resolves with the parsed message. -/
def replayForwardedResponseHandler (requestId text : String) (st : ReplayState) : ReplayState :=
  match parseJson text with
  | none => st
  | some msg =>
    if ¬ jsStrictEqStr (jGet msg "requestId") requestId then st
    else if jsStrictEqStr (jGet msg "type") "forwardedResponse" then
      let st := replayCleanup st
      { st with settled := settleOnce st.settled (.ok msg) }
    else st

/-- An HTTP header (or Express query parameter) value as Node delivers it:
a string or a list of strings; `none` at use sites models absence. -/
inductive HdrVal where
  | str (s : String)
  | strs (l : List String)

/-- `extractTokenFromAuthorization` (request-logs-dashboard.ts lines
399-421): non-string header → `undefined`; `Bearer <t>` → `t` trimmed;
`Basic <b64>` → base64-decode, split on `:`, take the second segment
(`undefined` when there is none); otherwise `undefined`. -/
def extractTokenFromAuthorization (header : Option HdrVal) : Option String :=
  match header with
  | some (.str h) =>
    let value := h.trim
    if (strToLower value).startsWith "bearer " then some ((value.drop 7).trim)
    else if (strToLower value).startsWith "basic " then
      let decoded := bufToUtf8 (decodeBase64 ((value.drop 6).trim))
      (decoded.splitOn ":").get? 1
    else none
  | _ => none

/-- UTF-8 encoding of one character. -/
def utf8Enc (c : Char) : List Nat :=
  let n := c.toNat
  if n < 0x80 then [n]
  else if n < 0x800 then [0xC0 + n / 64, 0x80 + n % 64]
  else if n < 0x10000 then [0xE0 + n / 4096, 0x80 + (n / 64) % 64, 0x80 + n % 64]
  else [0xF0 + n / 262144, 0x80 + (n / 4096) % 64, 0x80 + (n / 64) % 64, 0x80 + n % 64]

/-- `application/x-www-form-urlencoded` byte decoding (worker, fuelled by
the input length so that recursion is structural): `+` is a space, `%HH`
is a byte, anything else contributes its UTF-8 bytes (a malformed `%`
stands for itself). -/
def urlDecodeBytesAux : Nat → List Char → List Nat
  | 0, _ => []
  | _ + 1, [] => []
  | fuel + 1, '+' :: rest => 32 :: urlDecodeBytesAux fuel rest
  | fuel + 1, '%' :: c1 :: c2 :: rest =>
    (match hexVal c1, hexVal c2 with
     | some a, some b => (a * 16 + b) :: urlDecodeBytesAux fuel rest
     | _, _ => utf8Enc '%' ++ urlDecodeBytesAux fuel (c1 :: c2 :: rest))
  | fuel + 1, c :: rest => utf8Enc c ++ urlDecodeBytesAux fuel rest

/-- `application/x-www-form-urlencoded` byte decoding (every step consumes
at least one character, so the input length bounds the recursion
depth). -/
def urlDecodeBytes (cs : List Char) : List Nat :=
  urlDecodeBytesAux (cs.length + 1) cs

/-- Percent-decodes one urlencoded token. -/
def urlDecodeStr (s : String) : String :=
  bufToUtf8 (urlDecodeBytes s.data)

/-- Splits a character list at every occurrence of a separator
character. -/
def splitOnChar (c : Char) : List Char → List (List Char)
  | [] => [[]]
  | x :: rest =>
    match splitOnChar c rest with
    | [] => [[]]
    | cur :: done => if x = c then [] :: cur :: done else (x :: cur) :: done

/-- Splits a segment at its first `=`: the key, and the value when an `=`
is present. -/
def splitFirstEq : List Char → List Char × Option (List Char)
  | [] => ([], none)
  | x :: rest =>
    if x = '=' then ([], some rest)
    else
      let p := splitFirstEq rest
      (x :: p.1, p.2)

/-- Model of `new URLSearchParams(text)`: split on `&`, drop empty
segments, split each segment at its first `=` (a missing `=` gives the
empty value), percent-decode keys and values. -/
def parseUrlEncoded (s : String) : List (String × String) :=
  (splitOnChar '&' s.data).filterMap (fun seg =>
    match seg with
    | [] => none
    | _ =>
      let p := splitFirstEq seg
      some (urlDecodeStr (String.mk p.1), urlDecodeStr (String.mk (p.2.getD []))))

/-- `formDataFromRequest` (request-logs-dashboard.ts lines 383-397) given
the request body's text: an absent body (or one that is neither a Buffer
nor a string, modelled as `none`) gives empty parameters; otherwise the
text is parsed as a urlencoded form. -/
def formDataFromRequest (bodyText : Option String) : List (String × String) :=
  match bodyText with
  | none => []
  | some b => parseUrlEncoded b

/-- `URLSearchParams#get`: first value for the key, else `null`. -/
def formDataGet (params : List (String × String)) (k : String) : Option String :=
  (params.find? (fun p => p.1 = k)).map (fun p => p.2)

/-- `resolveRequestPassword` (request-logs-dashboard.ts lines 423-429):
form-field `token` (only present when form data was parsed, i.e. on POST),
else the query-string `token` when it is a single string, else the
Authorization-header token. The `??` chain skips only absent values, so an
empty-string token short-circuits the chain. -/
def resolveRequestPassword (formData : Option (List (String × String)))
    (queryToken : Option HdrVal) (authorizationHeader : Option HdrVal) : Option String :=
  let bodyToken := match formData with
    | some ps => formDataGet ps "token"
    | none => none
  let queryTok := match queryToken with
    | some (.str s) => some s
    | _ => none
  let headerToken := extractTokenFromAuthorization authorizationHeader
  (bodyToken <|> queryTok) <|> headerToken

/-- JavaScript falsiness of an optional string (`undefined` or `''`). -/
def jsFalsyStr (v : Option String) : Bool :=
  match v with
  | none => true
  | some s => s = ""

/-- The outcome of the dashboard's access gate. -/
inductive GateOutcome where
  | status404NoCredential
  | status401MissingToken
  | status401InvalidToken
  | authenticated (storedPassword : String)
deriving DecidableEq, Repr

/-- The access-gate portion of `requestLogsDashboard`
(request-logs-dashboard.ts lines 557-575), after the hostname has been
resolved: `!storedPassword` (absent or empty) → 404; otherwise parse form
data for POST only, resolve the presented token; `!providedPassword` →
401; `providedPassword !== storedPassword` → 401; else proceed
authenticated. -/
def requestLogsDashboardGate (storedPassword : Option String) (isPost : Bool)
    (bodyText : Option String) (queryToken : Option HdrVal)
    (authorizationHeader : Option HdrVal) : GateOutcome :=
  if jsFalsyStr storedPassword then .status404NoCredential
  else
    let stored := storedPassword.getD ""
    let formData := if isPost then some (formDataFromRequest bodyText) else none
    let providedPassword := resolveRequestPassword formData queryToken authorizationHeader
    if jsFalsyStr providedPassword then .status401MissingToken
    else if providedPassword.getD "" ≠ stored then .status401InvalidToken
    else .authenticated stored

/-- The HTTP status each gate outcome writes (authenticated requests
proceed to the action/render path). -/
def gateHttpStatus : GateOutcome → Option Nat
  | .status404NoCredential => some 404
  | .status401MissingToken => some 401
  | .status401InvalidToken => some 401
  | .authenticated _ => none

/-- The character-scan equality underlying the string comparison
`providedPassword !== storedPassword` at request-logs-dashboard.ts line
572, instrumented with the number of character pairs it inspects: the scan
stops at the first differing pair. -/
def eqScanSteps : List Char → List Char → Nat
  | x :: xs, y :: ys => 1 + (if x = y then eqScanSteps xs ys else 0)
  | _, _ => 0

/-- The running-time model of the comparison at line 572: strings of
different lengths are rejected by the length check alone; strings of equal
length are scanned until the first difference. -/
def jsStringCompareSteps (a b : String) : Nat :=
  if a.length = b.length then eqScanSteps a.data b.data else 0

/-- The comparison at request-logs-dashboard.ts line 572 itself:
JavaScript `!==` on the two password strings. -/
def dashboardPasswordMismatch (provided stored : String) : Bool :=
  provided ≠ stored

/-- renderPage template segment 0 (request-logs-dashboard.ts lines 197-380). -/
def pageT0 : String :=
  "\n        <!doctype html>\n        <html lang=\"en\">\n        <head>\n            <meta charset=\"utf-8\" />\n            <title>Request Logs for "

/-- renderPage template segment 1 (request-logs-dashboard.ts lines 197-380). -/
def pageT1 : String :=
  "</title>\n            <style>\n                body \x7b font-family: -apple-system, BlinkMacSystemFont, \"Segoe UI\", sans-serif; background-color: #111827; color: #e6edf3; margin: 0; padding: 2rem; \x7d\n                h1 \x7b margin-top: 0; font-size: 1.5rem; \x7d\n                .page-header \x7b display: flex; flex-wrap: wrap; align-items: center; justify-content: space-between; gap: 1rem; margin-bottom: 1rem; \x7d\n                .page-header .toolbar \x7b margin-left: auto; \x7d\n                .muted \x7b color: #8b949e; \x7d\n                .logs-layout \x7b display: grid; grid-template-columns: 320px 1fr; gap: 1rem; \x7d\n                .logs-sidebar \x7b background: #1b2432; border: 1px solid #30363d; border-radius: 8px; overflow: hidden; \x7d\n                #log-summaries \x7b list-style: none; margin: 0; padding: 0; \x7d\n                .log-summary \x7b display: grid; grid-template-columns: auto 1fr auto; gap: 0.5rem; padding: 0.75rem 1rem; cursor: pointer; border-bottom: 1px solid #30363d; align-items: baseline; \x7d\n                .log-summary:last-child \x7b border-bottom: none; \x7d\n                .log-summary .path \x7b font-family: monospace; white-space: nowrap; overflow: hidden; text-overflow: ellipsis; \x7d\n                .log-summary .timestamp \x7b font-size: 0.8rem; color: #8b949e; grid-column: 1 / -1; \x7d\n                .log-summary.active \x7b background: #2d3748; \x7d\n                .log-detail-panel \x7b margin-top: 0; margin-bottom: 0; background: #1f2937; border: 1px solid #30363d; border-radius: 8px; padding: 1rem; min-height: 400px; \x7d\n                .log-detail header \x7b display: flex; justify-content: space-between; flex-wrap: wrap; gap: 0.5rem; \x7d\n                .log-detail h2 \x7b margin: 0; \x7d\n                .method \x7b font-weight: 600; margin-right: 0.25rem; padding: 0.5rem 0.5rem; border-radius: 5px; font-size: 0.75rem; text-transform: uppercase; letter-spacing: 0.04em; display: inline-block; background: #374151; color: #e6edf3; \x7d\n                .method-get \x7b background: #22c55e; color: #fff; \x7d\n                .method-post \x7b background: #3b82f6; color: #ffffff; \x7d\n                .method-put \x7b background: #f59e0b; color: #ffffff; \x7d\n                .method-patch \x7b background: #a855f7; color: #ffffff; \x7d\n                .method-delete \x7b background: #ef4444; color: #ffffff; \x7d\n                .method-options \x7b background:rgb(14, 29, 233); color: #ffffff; \x7d\n                .method-head \x7b background: #94a3b8; color: #111827; \x7d\n                .method-default \x7b background: #4b5563; color: #e6edf3; \x7d\n                .path \x7b font-family: monospace; \x7d\n                .status \x7b font-weight: 600; \x7d\n                .status-error \x7b color: #f85149; \x7d\n                .timestamp \x7b font-size: 0.9rem; color: #8b949e; margin: 0; \x7d\n                pre \x7b background: #161d28; border: 1px solid #30363d; border-radius: 6px; padding: 0.75rem; overflow-x: auto; \x7d\n                section \x7b margin: 0.5rem 0; \x7d\n                form.toolbar \x7b margin: 0; \x7d\n                form.inline-form \x7b display: inline-block; \x7d\n                .btn \x7b background: #238636; border: 1px solid #2ea043; color: #fff; padding: 0.35rem 0.75rem; border-radius: 6px; cursor: pointer; font-size: 0.85rem; \x7d\n                .btn:hover \x7b background: #2ea043; \x7d\n                .actions \x7b display: flex; flex-wrap: wrap; gap: 0.5rem; align-items: center; \x7d\n                .flash \x7b padding: 0.75rem 1rem; border-radius: 6px; margin-bottom: 1rem; \x7d\n                .flash-success \x7b background: #1f6feb33; border: 1px solid #1f6feb; \x7d\n                .flash-error \x7b background: #f8514933; border: 1px solid #f85149; \x7d\n            </style>\n            <script>\n                const LOG_CONTAINER_ID = \x27log-entries\x27;\n                const POLL_INTERVAL_MS = 5000;\n                let isRefreshingLogs = false;\n\n                const activateLogDetails = (detailsId) => \x7b\n                    if (!detailsId) \x7b\n                        return false;\n                    \x7d\n\n                    let activated = false;\n                    const detailPanels = document.querySelectorAll(\x27.log-detail\x27);\n                    detailPanels.forEach((panel) => \x7b\n                        if (panel.id === detailsId) \x7b\n                            panel.removeAttribute(\x27hidden\x27);\n                            activated = true;\n                        \x7d else \x7b\n                            panel.setAttribute(\x27hidden\x27, \x27true\x27);\n                        \x7d\n                    \x7d);\n\n                    const summaries = document.querySelectorAll(\x27.log-summary\x27);\n                    summaries.forEach((summary) => \x7b\n                        const summaryDetailsId = summary.getAttribute(\x27data-details-id\x27);\n                        summary.classList.toggle(\x27active\x27, summaryDetailsId === detailsId);\n                    \x7d);\n\n                    return activated;\n                \x7d;\n\n                const activateFirstLog = () => \x7b\n                    const firstSummary = document.querySelector(\x27.log-summary\x27);\n                    if (!firstSummary) \x7b\n                        const detailPanels = document.querySelectorAll(\x27.log-detail\x27);\n                        detailPanels.forEach((panel) => panel.setAttribute(\x27hidden\x27, \x27true\x27));\n                        return;\n                    \x7d\n                    const detailsId = firstSummary.getAttribute(\x27data-details-id\x27);\n                    if (detailsId) \x7b\n                        activateLogDetails(detailsId);\n                    \x7d\n                \x7d;\n\n                const getActiveDetailsId = () => \x7b\n                    const activeSummary = document.querySelector(\x27.log-summary.active\x27);\n                    return activeSummary ? activeSummary.getAttribute(\x27data-details-id\x27) : undefined;\n                \x7d;\n\n                const restoreActiveDetails = (detailsId) => \x7b\n                    if (!detailsId) \x7b\n                        activateFirstLog();\n                        return;\n                    \x7d\n                    if (!activateLogDetails(detailsId)) \x7b\n                        activateFirstLog();\n                    \x7d\n                \x7d;\n\n                const refreshLogs = async () => \x7b\n                    if (isRefreshingLogs || document.hidden) \x7b\n                        return;\n                    \x7d\n                    const container = document.getElementById(LOG_CONTAINER_ID);\n                    if (!container) \x7b\n                        return;\n                    \x7d\n\n                    const activeDetailsId = getActiveDetailsId();\n                    isRefreshingLogs = true;\n\n                    try \x7b\n                        const response = await fetch(window.location.href, \x7b\n                            headers: \x7b \x27X-Requested-With\x27: \x27XMLHttpRequest\x27 \x7d,\n                            cache: \x27no-cache\x27\n                        \x7d);\n                        if (!response.ok) \x7b\n                            return;\n                        \x7d\n                        const text = await response.text();\n                        const parser = new DOMParser();\n                        const doc = parser.parseFromString(text, \x27text/html\x27);\n                        const updatedContainer = doc.getElementById(LOG_CONTAINER_ID);\n                        if (!updatedContainer) \x7b\n                            return;\n                        \x7d\n                        if (container.innerHTML === updatedContainer.innerHTML) \x7b\n                            return;\n                        \x7d\n                        container.innerHTML = updatedContainer.innerHTML;\n                        restoreActiveDetails(activeDetailsId);\n                    \x7d catch (error) \x7b\n                        console.error(\x27Failed to refresh request logs:\x27, error);\n                    \x7d finally \x7b\n                        isRefreshingLogs = false;\n                    \x7d\n                \x7d;\n\n                const startLogPolling = () => \x7b\n                    activateFirstLog();\n                    setInterval(refreshLogs, POLL_INTERVAL_MS);\n                \x7d;\n\n                document.addEventListener(\x27click\x27, (event) => \x7b\n                    const rawTarget = event.target;\n                    if (!(rawTarget instanceof HTMLElement)) \x7b\n                        return;\n                    \x7d\n\n                    const summary = rawTarget.closest(\x27.log-summary\x27);\n                    if (!summary) \x7b\n                        return;\n                    \x7d\n\n                    event.preventDefault();\n                    const detailsId = summary.getAttribute(\x27data-details-id\x27);\n                    activateLogDetails(detailsId);\n                \x7d);\n\n                document.addEventListener(\x27DOMContentLoaded\x27, startLogPolling);\n            </script>\n        </head>\n        <body>\n            <div class=\"page-header\">\n                <h1>Request Logs for "

/-- renderPage template segment 2 (request-logs-dashboard.ts lines 197-380). -/
def pageT2 : String :=
  "</h1>\n                <form method=\"post\" class=\"toolbar\">\n                    <input type=\"hidden\" name=\"action\" value=\"prune\" />\n                    "

/-- renderPage template segment 3 (request-logs-dashboard.ts lines 197-380). -/
def pageT3 : String :=
  "\n                    <button type=\"submit\" class=\"btn\">Prune All Logs For This Host</button>\n                </form>\n            </div>\n            "

/-- renderPage template segment 4 (request-logs-dashboard.ts lines 197-380). -/
def pageT4 : String :=
  "\n            <div id=\"log-entries\">\n                "

/-- renderPage template segment 5 (request-logs-dashboard.ts lines 197-380). -/
def pageT5 : String :=
  "\n            </div>\n        </body>\n        </html>\n    "

/-- Template segment 0 of the nonempty logs layout (request-logs-dashboard.ts lines 179-192). -/
def entriesT0 : String :=
  "\n            <div class=\"logs-layout\" data-has-logs=\"true\">\n                <aside class=\"logs-sidebar\">\n                    <ul id=\"log-summaries\">\n                        "

/-- Template segment 1 of the nonempty logs layout (request-logs-dashboard.ts lines 179-192). -/
def entriesT1 : String :=
  "\n                    </ul>\n                </aside>\n                <section class=\"log-detail-panel\">\n                    <div id=\"log-detail-container\">\n                        "

/-- Template segment 2 of the nonempty logs layout (request-logs-dashboard.ts lines 179-192). -/
def entriesT2 : String :=
  "\n                    </div>\n                </section>\n            </div>\n        "

/-- The empty-logs markup (request-logs-dashboard.ts line 193). -/
def entriesEmpty : String :=
  "<p class=\"muted\">No requests logged for this endpoint yet.</p>"

/-- Hidden token input, before the escaped token (request-logs-dashboard.ts lines 121 and 196). -/
def tokenInputT0 : String :=
  "<input type=\"hidden\" name=\"token\" value=\""

/-- Hidden token input, after the escaped token. -/
def tokenInputT1 : String :=
  "\" />"

/-- Replay form template segment 0 (request-logs-dashboard.ts lines 125-134). -/
def replayButtonT0 : String :=
  "\n            <form method=\"post\" class=\"inline-form\">\n                <input type=\"hidden\" name=\"action\" value=\"replay\" />\n                <input type=\"hidden\" name=\"logId\" value=\""

/-- Replay form template segment 1 (request-logs-dashboard.ts lines 125-134). -/
def replayButtonT1 : String :=
  "\" />\n                "

/-- Replay form template segment 2 (request-logs-dashboard.ts lines 125-134). -/
def replayButtonT2 : String :=
  "\n                <button type=\"submit\" class=\"btn\">Replay</button>\n            </form>\n        "

/-- Summary template segment 0 (request-logs-dashboard.ts lines 136-143). -/
def summaryT0 : String :=
  "\n        <li class=\"log-summary\" data-details-id=\""

/-- Summary template segment 1 (request-logs-dashboard.ts lines 136-143). -/
def summaryT1 : String :=
  "\">\n            <span class=\""

/-- Summary template segment 2 (request-logs-dashboard.ts lines 136-143). -/
def summaryT2 : String :=
  "\">"

/-- Summary template segment 3 (request-logs-dashboard.ts lines 136-143). -/
def summaryT3 : String :=
  "</span>\n            <span class=\"path\">"

/-- Summary template segment 4 (request-logs-dashboard.ts lines 136-143). -/
def summaryT4 : String :=
  "</span>\n            <span class=\"status "

/-- Summary template segment 5 (request-logs-dashboard.ts lines 136-143). -/
def summaryT5 : String :=
  "\">"

/-- Summary template segment 6 (request-logs-dashboard.ts lines 136-143). -/
def summaryT6 : String :=
  "</span>\n            <span class=\"timestamp\">"

/-- Summary template segment 7 (request-logs-dashboard.ts lines 136-143). -/
def summaryT7 : String :=
  "</span>\n        </li>\n    "

/-- Detail template segment 0 (request-logs-dashboard.ts lines 145-168). -/
def detailT0 : String :=
  "\n        <article id=\""

/-- Detail template segment 1 (request-logs-dashboard.ts lines 145-168). -/
def detailT1 : String :=
  "\" class=\"log-detail\" hidden>\n            <header>\n                <div>\n                    <h2><span class=\""

/-- Detail template segment 2 (request-logs-dashboard.ts lines 145-168). -/
def detailT2 : String :=
  "\">"

/-- Detail template segment 3 (request-logs-dashboard.ts lines 145-168). -/
def detailT3 : String :=
  "</span> <span class=\"path\">"

/-- Detail template segment 4 (request-logs-dashboard.ts lines 145-168). -/
def detailT4 : String :=
  "</span></h2>\n                    <p class=\"timestamp\">"

/-- Detail template segment 5 (request-logs-dashboard.ts lines 145-168). -/
def detailT5 : String :=
  "</p>\n                </div>\n                <div class=\"actions\">\n                    <span class=\"status "

/-- Detail template segment 6 (request-logs-dashboard.ts lines 145-168). -/
def detailT6 : String :=
  "\">"

/-- Detail template segment 7 (request-logs-dashboard.ts lines 145-168). -/
def detailT7 : String :=
  "</span>\n                    "

/-- Detail template segment 8 (request-logs-dashboard.ts lines 145-168). -/
def detailT8 : String :=
  "\n                </div>\n            </header>\n            <section>\n                <h4>Request Headers</h4>\n                <pre>"

/-- Detail template segment 9 (request-logs-dashboard.ts lines 145-168). -/
def detailT9 : String :=
  "</pre>\n            </section>\n            "

/-- Detail template segment 10 (request-logs-dashboard.ts lines 145-168). -/
def detailT10 : String :=
  "\n            <section>\n                <h4>Response Headers</h4>\n                <pre>"

/-- Detail template segment 11 (request-logs-dashboard.ts lines 145-168). -/
def detailT11 : String :=
  "</pre>\n            </section>\n            "

/-- Detail template segment 12 (request-logs-dashboard.ts lines 145-168). -/
def detailT12 : String :=
  "\n        </article>\n    "

/-- Body-section template segment 0 (request-logs-dashboard.ts lines 58-67). -/
def bodySectionT0 : String :=
  "\n        <section>\n            <h4>"

/-- Body-section template segment 1 (request-logs-dashboard.ts lines 58-67). -/
def bodySectionT1 : String :=
  "</h4>\n            <pre style=\"white-space: pre-wrap;\">"

/-- Body-section template segment 2 (request-logs-dashboard.ts lines 58-67). -/
def bodySectionT2 : String :=
  "</pre>\n            <details>\n                <summary>Raw (base64)</summary>\n                <pre>"

/-- Body-section template segment 3 (request-logs-dashboard.ts lines 58-67). -/
def bodySectionT3 : String :=
  "</pre>\n            </details>\n        </section>\n    "

/-- Empty body-section markup, before the title (request-logs-dashboard.ts line 52). -/
def bodySectionEmptyT0 : String :=
  "<section><h4>"

/-- Empty body-section markup, after the title. -/
def bodySectionEmptyT1 : String :=
  "</h4><div class=\"muted\">Empty</div></section>"

/-- Flash error markup, before the message (request-logs-dashboard.ts line 76). -/
def flashErrorT0 : String :=
  "<div class=\"flash flash-error\">"

/-- Flash error markup, after the message. -/
def flashErrorT1 : String :=
  "</div>"

/-- Flash success markup, before the message (request-logs-dashboard.ts line 80). -/
def flashSuccessT0 : String :=
  "<div class=\"flash flash-success\">"

/-- Flash success markup, after the message. -/
def flashSuccessT1 : String :=
  "</div>"

/-- Replaces every occurrence of a character by a string (one global
regex replacement of the `htmlEscape` chain). -/
def htmlReplaceChar (s : String) (c : Char) (rep : String) : String :=
  String.mk (s.data.foldr (fun ch acc => if ch = c then rep.data ++ acc else ch :: acc) [])

/-- `htmlEscape` (request-logs-dashboard.ts lines 21-27): the successive
global replacements of `&`, `<`, `>`, `"` and the single quote. -/
def htmlEscape (value : String) : String :=
  htmlReplaceChar
    (htmlReplaceChar
      (htmlReplaceChar
        (htmlReplaceChar
          (htmlReplaceChar value '&' "&amp;")
          '<' "&lt;")
        '>' "&gt;")
      '"' "&quot;")
    squote "&#39;"

/-- `decodeBody` (request-logs-dashboard.ts lines 29-40): a falsy body
gives the empty string, otherwise base64-decode and read as UTF-8 (the
`catch` is unreachable: Node's forgiving decoder does not throw). -/
def decodeBody (base64Body : String) : String :=
  if base64Body = "" then "" else bufToUtf8 (decodeBase64 base64Body)

/-- Lowercase hexadecimal digit. -/
def hexDigit (n : Nat) : Char :=
  if n < 10 then Char.ofNat (48 + n) else Char.ofNat (97 + n - 10)

/-- `JSON.stringify` escaping of one character inside a string literal. -/
def jsonEscChar (c : Char) : List Char :=
  if c = '"' then [bslash, '"']
  else if c = bslash then [bslash, bslash]
  else if c = Char.ofNat 8 then [bslash, 'b']
  else if c = Char.ofNat 12 then [bslash, 'f']
  else if c = '\n' then [bslash, 'n']
  else if c = '\r' then [bslash, 'r']
  else if c = '\t' then [bslash, 't']
  else if c.toNat < 32 then [bslash, 'u', '0', '0', hexDigit (c.toNat / 16), hexDigit (c.toNat % 16)]
  else [c]

/-- A `JSON.stringify` string literal. -/
def jsonStrLit (s : String) : String :=
  "\"" ++ String.mk (s.data.foldr (fun c acc => jsonEscChar c ++ acc) []) ++ "\""

/-- `n` spaces. -/
def indentPad (n : Nat) : String :=
  String.mk (List.replicate n ' ')

mutual

/-- `JSON.stringify(v, null, 2)` pretty-printing at an indentation level
(numbers are emitted as their stored lexeme). -/
def jsonStringify2 (indent : Nat) : Json → String
  | .null => "null"
  | .bool b => if b then "true" else "false"
  | .num lexeme => lexeme
  | .str s => jsonStrLit s
  | .arr [] => "[]"
  | .arr (x :: xs) =>
    "[\n" ++ String.intercalate ",\n" (jsonStringifyItems (indent + 2) (x :: xs))
      ++ "\n" ++ indentPad indent ++ "]"
  | .obj [] => String.mk [lbrace, rbrace]
  | .obj (f :: fs) =>
    String.mk [lbrace] ++ "\n"
      ++ String.intercalate ",\n" (jsonStringifyFields (indent + 2) (f :: fs))
      ++ "\n" ++ indentPad indent ++ String.mk [rbrace]

/-- Pretty-printed array items. -/
def jsonStringifyItems (indent : Nat) : List Json → List String
  | [] => []
  | v :: rest => (indentPad indent ++ jsonStringify2 indent v) :: jsonStringifyItems indent rest

/-- Pretty-printed object members. -/
def jsonStringifyFields (indent : Nat) : List (String × Json) → List String
  | [] => []
  | (k, v) :: rest =>
    (indentPad indent ++ jsonStrLit k ++ ": " ++ jsonStringify2 indent v)
      :: jsonStringifyFields indent rest

end

/-- `formatJson` (request-logs-dashboard.ts lines 42-48). -/
def formatJson (payload : List (String × Json)) : String :=
  if payload.isEmpty then "None" else jsonStringify2 0 (.obj payload)

/-- `renderBodySection` (request-logs-dashboard.ts lines 50-68). -/
def renderBodySection (title base64Body : String) : String :=
  if base64Body = "" then bodySectionEmptyT0 ++ title ++ bodySectionEmptyT1
  else
    let decoded := decodeBody base64Body
    let readableBody := if decoded ≠ "" then htmlEscape decoded else "<em>Binary data (see raw)</em>"
    bodySectionT0 ++ title ++ bodySectionT1 ++ readableBody ++ bodySectionT2
      ++ htmlEscape base64Body ++ bodySectionT3

/-- `FlashMessage` (request-logs-dashboard.ts lines 16-19). -/
structure FlashMessage where
  success : Option String
  error : Option String

/-- `renderFlash` (request-logs-dashboard.ts lines 70-84). -/
def renderFlash (flash : Option FlashMessage) : String :=
  match flash with
  | none => ""
  | some f =>
    if ¬ jsFalsyStr f.error then flashErrorT0 ++ htmlEscape (f.error.getD "") ++ flashErrorT1
    else if ¬ jsFalsyStr f.success then
      flashSuccessT0 ++ htmlEscape (f.success.getD "") ++ flashSuccessT1
    else ""

/-- `methodClassName` (request-logs-dashboard.ts lines 91-115). -/
def methodClassName (method : String) : String :=
  let normalized := strToLower method
  if normalized = "get" then "method-get"
  else if normalized = "post" then "method-post"
  else if normalized = "put" then "method-put"
  else if normalized = "patch" then "method-patch"
  else if normalized = "delete" then "method-delete"
  else if normalized = "options" then "method-options"
  else if normalized = "head" then "method-head"
  else "method-default"

/-- Abstract stand-in for `new Date(s).toLocaleString('fr-FR')`: locale and
time-zone dependent formatting that none of the verified dashboard
properties depend on. -/
def jsDateToLocaleStringFrFr (s : String) : String := s

/-- The hidden token input `tokenInput` both `renderEntry` and
`renderPage` build when the token is truthy (request-logs-dashboard.ts
lines 121 and 196). -/
def tokenInputMarkup (token : Option String) : String :=
  match token with
  | some t => if t = "" then "" else tokenInputT0 ++ htmlEscape t ++ tokenInputT1
  | none => ""

/-- `Array.prototype.join(sep)`. -/
def joinWith (sep : String) : List String → String
  | [] => ""
  | [x] => x
  | x :: y :: rest => x ++ sep ++ joinWith sep (y :: rest)

/-- The replay form `renderEntry` emits for a log that has an id
(request-logs-dashboard.ts lines 125-134). -/
def replayFormMarkup (id : Nat) (token : Option String) : String :=
  replayButtonT0 ++ Nat.repr id ++ replayButtonT1 ++ tokenInputMarkup token ++ replayButtonT2

/-- The prune form's markup before its token input (the tail of
`pageT2`). -/
def pruneFormA : String :=
  "<form method=\"post\" class=\"toolbar\">\n                    <input type=\"hidden\" name=\"action\" value=\"prune\" />\n                    "

/-- The prune form's markup after its token input (the head of
`pageT3`). -/
def pruneFormB : String :=
  "\n                    <button type=\"submit\" class=\"btn\">Prune All Logs For This Host</button>\n                </form>"

/-- The prune form `renderPage` emits (request-logs-dashboard.ts lines
368-372), with the hidden token input inside. -/
def pruneFormMarkup (token : Option String) : String :=
  pruneFormA ++ tokenInputMarkup token ++ pruneFormB

/-- `needle` occurs contiguously inside `hay`. -/
def strInfix (needle hay : String) : Prop :=
  needle.data <:+: hay.data

/-- `RenderedLogEntry` (request-logs-dashboard.ts lines 86-89). -/
structure RenderedLogEntry where
  summary : String
  detail : String

/-- `renderEntry` (request-logs-dashboard.ts lines 117-171); `freshId`
stands for the `nanoid(8)` drawn when the log has no id. -/
def renderEntry (log : RequestLog) (freshId : String) (token : Option String) :
    RenderedLogEntry :=
  let createdAt := match log.createdAt with
    | some s => if s = "" then "Unknown time" else jsDateToLocaleStringFrFr s
    | none => "Unknown time"
  let headersSection := htmlEscape (formatJson log.requestHeaders)
  let responseHeadersSection := htmlEscape (formatJson log.responseHeaders)
  let detailsId := match log.id with
    | some i => "log-details-" ++ Nat.repr i
    | none => "log-details-" ++ freshId
  let methodClasses := "method " ++ methodClassName log.method
  let replayButton := match log.id with
    | some i => replayFormMarkup i token
    | none => ""
  let statusErr := match log.responseStatus with
    | some n => if 400 ≤ n then "status-error" else ""
    | none => ""
  let statusText := match log.responseStatus with
    | some n => Nat.repr n
    | none => "—"
  { summary := summaryT0 ++ detailsId ++ summaryT1 ++ methodClasses ++ summaryT2
      ++ htmlEscape log.method ++ summaryT3 ++ htmlEscape log.path ++ summaryT4
      ++ statusErr ++ summaryT5 ++ statusText ++ summaryT6 ++ htmlEscape createdAt ++ summaryT7
    detail := detailT0 ++ detailsId ++ detailT1 ++ methodClasses ++ detailT2
      ++ htmlEscape log.method ++ detailT3 ++ htmlEscape log.path ++ detailT4
      ++ htmlEscape createdAt ++ detailT5 ++ statusErr ++ detailT6 ++ statusText ++ detailT7
      ++ replayButton ++ detailT8 ++ headersSection ++ detailT9
      ++ renderBodySection "Request Body" log.requestBody ++ detailT10
      ++ responseHeadersSection ++ detailT11
      ++ renderBodySection "Response Body" log.responseBody ++ detailT12 }

/-- `renderPage` (request-logs-dashboard.ts lines 173-381); `fresh`
supplies the `nanoid(8)` draw for the entry at each index. -/
def renderPage (hostname : String) (logs : List RequestLog) (flash : Option FlashMessage)
    (token : Option String) (fresh : Nat → String) : String :=
  let renderedEntries := logs.enum.map (fun p => renderEntry p.2 (fresh p.1) token)
  let summaries := joinWith "\n" (renderedEntries.map (fun e => e.summary))
  let detailPanels := joinWith "\n" (renderedEntries.map (fun e => e.detail))
  let entries :=
    if logs.length > 0 then entriesT0 ++ summaries ++ entriesT1 ++ detailPanels ++ entriesT2
    else entriesEmpty
  let flashMarkup := renderFlash flash
  let tokenInput := tokenInputMarkup token
  pageT0 ++ htmlEscape hostname ++ pageT1 ++ htmlEscape hostname ++ pageT2
    ++ tokenInput ++ pageT3 ++ flashMarkup ++ pageT4 ++ entries ++ pageT5

/-- The page an authenticated dashboard request receives
(request-logs-dashboard.ts lines 596-599): `renderPage` is called with the
stored password as the token. -/
def requestLogsDashboardPage (hostname : String) (logs : List RequestLog)
    (flash : Option FlashMessage) (storedPassword : String) (fresh : Nat → String) : String :=
  renderPage hostname logs flash (some storedPassword) fresh

/-- A concrete stored request log used to instantiate the dashboard claims
on explicit inputs. -/
def sampleLog : RequestLog :=
  { id := some 7
    hostname := "a.example"
    path := "/x"
    method := "POST"
    requestHeaders := [("Content-Type", .str "application/json")]
    requestBody := "e30="
    responseStatus := some 201
    responseHeaders := [("Content-Type", .str "application/json")]
    responseBody := "e30="
    createdAt := some "2024-01-01 00:00:00" }

/-! ## Helper lemmas -/

theorem charOfNat_toNat (n : Nat) (h : n.isValidChar) : (Char.ofNat n).toNat = n := by
  have h2 : n < 1114112 := by
    rcases h with h | h
    · omega
    · omega
  simp [Char.ofNat, h, Char.ofNatAux, Char.toNat, UInt32.toNat, BitVec.toNat_ofNat]

theorem toLower_toUpper (c : Char) : Char.toLower (Char.toUpper c) = Char.toLower c := by
  simp only [Char.toUpper, Char.toLower]
  by_cases h : c.toNat ≥ 97 ∧ c.toNat ≤ 122
  · rw [if_pos h]
    have hv : (c.toNat - 32).isValidChar := Or.inl (by omega)
    rw [charOfNat_toNat _ hv]
    rw [if_pos (by omega : c.toNat - 32 ≥ 65 ∧ c.toNat - 32 ≤ 90)]
    rw [if_neg (by omega : ¬ (c.toNat ≥ 65 ∧ c.toNat ≤ 90))]
    have heq : c.toNat - 32 + 32 = c.toNat := by omega
    rw [heq, Char.ofNat_toNat]
  · rw [if_neg h]

theorem mem_objSet {l : List (String × Json)} {k : String} {v : Json} {p : String × Json}
    (hp : p ∈ objSet l k v) : p.1 = k ∨ ∃ q ∈ l, p.1 = q.1 := by
  induction l with
  | nil =>
    simp only [objSet, List.mem_singleton] at hp
    left
    rw [hp]
  | cons head tail ih =>
    obtain ⟨k', v'⟩ := head
    simp only [objSet] at hp
    by_cases hk : k' = k
    · rw [if_pos hk] at hp
      rcases List.mem_cons.mp hp with h1 | h1
      · left
        rw [h1, hk]
      · right
        exact ⟨p, List.mem_cons_of_mem _ h1, rfl⟩
    · rw [if_neg hk] at hp
      rcases List.mem_cons.mp hp with h1 | h1
      · right
        exact ⟨(k', v'), List.mem_cons_self _ _, by rw [h1]⟩
      · rcases ih h1 with h2 | ⟨q, hq, h2⟩
        · left
          exact h2
        · right
          exact ⟨q, List.mem_cons_of_mem _ hq, h2⟩

theorem objSet_eq_append {l : List (String × Json)} {k : String} {v : Json}
    (h : ∀ q ∈ l, q.1 ≠ k) : objSet l k v = l ++ [(k, v)] := by
  induction l with
  | nil => rfl
  | cons head tail ih =>
    obtain ⟨k', v'⟩ := head
    have hk : k' ≠ k := h (k', v') (List.mem_cons_self _ _)
    simp only [objSet, if_neg hk, List.cons_append, List.cons.injEq, true_and]
    exact ih (fun q hq => h q (List.mem_cons_of_mem _ hq))

theorem sanitizeFold_inv (fields : List (String × Json)) (acc : List (String × Json))
    (hacc : ∀ p ∈ acc, strToLower p.1 ∉ forbiddenResponseHeaders) :
    ∀ p ∈ fields.foldl
        (fun acc p =>
          if strToLower p.1 ∈ forbiddenResponseHeaders then acc
          else objSet acc p.1 p.2)
        acc,
      strToLower p.1 ∉ forbiddenResponseHeaders := by
  induction fields generalizing acc with
  | nil => exact hacc
  | cons f fs ih =>
    intro p hp
    rw [List.foldl_cons] at hp
    by_cases hf : strToLower f.1 ∈ forbiddenResponseHeaders
    · rw [if_pos hf] at hp
      exact ih acc hacc p hp
    · rw [if_neg hf] at hp
      refine ih _ ?_ p hp
      intro q hq
      rcases mem_objSet hq with h1 | ⟨r, hr, h2⟩
      · rw [h1]
        exact hf
      · rw [h2]
        exact hacc r hr

theorem mem_sanitizeBase {headers : Option (List (String × Json))} {p : String × Json}
    (hp : p ∈ sanitizeBase headers) : strToLower p.1 ∉ forbiddenResponseHeaders := by
  cases headers with
  | none => simp [sanitizeBase] at hp
  | some fields =>
    exact sanitizeFold_inv fields [] (by simp) p (by simpa [sanitizeBase] using hp)

theorem mem_sanitizeBase_ne_cl {headers : Option (List (String × Json))} {p : String × Json}
    (hp : p ∈ sanitizeBase headers) : p.1 ≠ "content-length" := by
  intro hcl
  have h1 := mem_sanitizeBase hp
  rw [hcl] at h1
  exact h1 (by decide)

theorem sanitize_some_eq (headers : Option (List (String × Json))) (len : Nat) :
    sanitizeForwardedResponseHeaders headers (some len)
      = sanitizeBase headers ++ [("content-length", Json.str (Nat.repr len))] := by
  unfold sanitizeForwardedResponseHeaders
  exact objSet_eq_append (fun q hq => mem_sanitizeBase_ne_cl hq)

theorem removeFRH_listenerRemoved (st : DState) :
    (removeForwardedResponseHandler st).listenerRemoved = true := by
  unfold removeForwardedResponseHandler
  by_cases h : st.listenerRemoved
  · rw [if_pos h]
    exact h
  · rw [if_neg h]

theorem removeFRH_eq (st : DState) :
    removeForwardedResponseHandler st = { st with listenerRemoved := true } := by
  unfold removeForwardedResponseHandler
  by_cases h : st.listenerRemoved
  · rw [if_pos h]
    cases st
    simp only [] at h
    rw [h]
  · rw [if_neg h]

theorem strInfix_refl (s : String) : strInfix s s :=
  ⟨[], [], by simp⟩

theorem strInfix_trans {a b c : String} (h1 : strInfix a b) (h2 : strInfix b c) :
    strInfix a c :=
  List.IsInfix.trans h1 h2

theorem strInfix_appendL {n : String} (x y : String) (h : strInfix n x) :
    strInfix n (x ++ y) := by
  obtain ⟨s, t, hst⟩ := h
  exact ⟨s, t ++ y.data, by rw [String.data_append, ← hst]; simp⟩

theorem strInfix_appendR {n : String} (x y : String) (h : strInfix n y) :
    strInfix n (x ++ y) := by
  obtain ⟨s, t, hst⟩ := h
  exact ⟨x.data ++ s, t, by rw [String.data_append, ← hst]; simp⟩

theorem strInfix_middle (a b c : String) : strInfix b (a ++ b ++ c) :=
  ⟨a.data, c.data, by simp [String.data_append]⟩

theorem strInfix_joinWith (sep : String) (l : List String) (x : String) (hx : x ∈ l) :
    strInfix x (joinWith sep l) := by
  induction l with
  | nil => cases hx
  | cons y rest ih =>
    cases rest with
    | nil =>
      rcases List.mem_singleton.mp hx with h1
      rw [h1]
      exact strInfix_refl y
    | cons z rest' =>
      rcases List.mem_cons.mp hx with h1 | h1
      · rw [h1]
        show strInfix y (y ++ sep ++ joinWith sep (z :: rest'))
        exact strInfix_appendL _ _ (strInfix_appendL _ _ (strInfix_refl y))
      · show strInfix x (y ++ sep ++ joinWith sep (z :: rest'))
        exact strInfix_appendR _ _ (ih h1)

/-! ## Claims -/

/-- C1: the claim says buffered dispatches get a 10-minute deadline whose
expiry unsubscribes, terminates and writes HTTP 504 when headers are
unsent. In the code the constant named `tenMinutesInMilliseconds` is
300000 ms (5 minutes), and the timer callback only removes the listener:
evaluated on a fresh buffered dispatch, expiry sets no status, writes no
bytes, sends no body and does not end the response. -/
theorem C1_buffered_timeout_five_minutes_no_504 :
    tenMinutesInMilliseconds = 300000
    ∧ tenMinutesInMilliseconds ≠ 10 * 60 * 1000
    ∧ (bufferedTimeoutCallback DState.init).listenerRemoved = true
    ∧ (bufferedTimeoutCallback DState.init).resp.statusSets = []
    ∧ (bufferedTimeoutCallback DState.init).resp.writes = []
    ∧ (bufferedTimeoutCallback DState.init).resp.sentBody = none
    ∧ (bufferedTimeoutCallback DState.init).resp.ended = false :=
  ⟨rfl, by decide, rfl, rfl, rfl, rfl, rfl⟩

/-- C2 counterexample: in `handleRequest` the subscribe step does not
precede the send step — `sendMessage(forwardedRequest)` (line 61) runs
before `on('message', ...)` (line 182) — and a send failure leaves the
client with no status written (in particular not 502). -/
theorem C2_counterexample :
    ¬ ((handleRequestRun "a.example" true true false).actions.indexOf
          DispatchSetupAction.subscribeResponseHandler
        < (handleRequestRun "a.example" true true false).actions.indexOf
          DispatchSetupAction.sendForwardedRequest)
    ∧ (handleRequestRun "a.example" true false false).statusWritten = none
    ∧ (none : Option Nat) ≠ some 502 := by
  decide

/-- C2 amended: for every dispatch the `forwardedRequest` frame is sent
before the frame handler is subscribed to the peer, and when the send
fails the exception escapes `handleRequest` (there is no surrounding
try/catch): no status — in particular no 502 — is written and no later
setup step runs. -/
theorem C2_send_before_subscribe_no_502 (hostname : String) (shouldStream : Bool) :
    (handleRequestRun hostname true true shouldStream).actions.indexOf
        DispatchSetupAction.sendForwardedRequest
      < (handleRequestRun hostname true true shouldStream).actions.indexOf
        DispatchSetupAction.subscribeResponseHandler
    ∧ (handleRequestRun hostname true false shouldStream).statusWritten = none
    ∧ (handleRequestRun hostname true false shouldStream).exceptionEscaped = true
    ∧ (handleRequestRun hostname true false shouldStream).actions
        = [DispatchSetupAction.sendForwardedRequest] := by
  cases shouldStream
  · refine ⟨?_, rfl, rfl, rfl⟩
    have h : (handleRequestRun hostname true true false).actions
        = [DispatchSetupAction.sendForwardedRequest,
           DispatchSetupAction.subscribeResponseHandler,
           DispatchSetupAction.armBufferedTimeout] := rfl
    rw [h]
    decide
  · refine ⟨?_, rfl, rfl, rfl⟩
    have h : (handleRequestRun hostname true true true).actions
        = [DispatchSetupAction.sendForwardedRequest,
           DispatchSetupAction.subscribeResponseHandler,
           DispatchSetupAction.registerCloseHandler] := rfl
    rw [h]
    decide

/-- C6 counterexample: the synthetic replay frame does not carry
`responseMode: 'buffer'` — the object literal at request-logs-dashboard.ts
lines 443-450 has no `responseMode` property at all. -/
theorem C6_counterexample :
    (replayForwardedRequest sampleLog "replay-1").responseMode = none
    ∧ (replayForwardedRequest sampleLog "replay-1").responseMode ≠ some "buffer" :=
  ⟨rfl, by decide⟩

/-- C6 amended: the replay engine constructs a synthetic `forwardedRequest`
carrying the stored log's method, path, headers and base64 body under a
fresh request id, omits `responseMode` entirely (so it never requests
streaming), and arms a 30000 ms deadline whose expiry removes the
listener, clears the timer and rejects with the timeout error. -/
theorem C6_replay_message_and_timeout (log : RequestLog) (requestId : String) :
    (replayForwardedRequest log requestId).requestId = requestId
    ∧ (replayForwardedRequest log requestId).type = "forwardedRequest"
    ∧ (replayForwardedRequest log requestId).url = log.path
    ∧ (replayForwardedRequest log requestId).method = log.method
    ∧ (replayForwardedRequest log requestId).headers = log.requestHeaders
    ∧ (replayForwardedRequest log requestId).body = log.requestBody
    ∧ (replayForwardedRequest log requestId).responseMode = none
    ∧ REPLAY_TIMEOUT_MS = 30000
    ∧ (∀ rst : ReplayState, rst.settled = none →
        (replayTimeoutCallback rst).settled
            = some (Except.error "Timed out while waiting for replay response.")
        ∧ (replayTimeoutCallback rst).listenerRemoved = true
        ∧ (replayTimeoutCallback rst).timeoutCleared = true) := by
  refine ⟨rfl, rfl, rfl, rfl, rfl, rfl, rfl, rfl, ?_⟩
  intro rst h
  refine ⟨?_, rfl, rfl⟩
  simp [replayTimeoutCallback, replayCleanup, settleOnce, h]

/-- C6 witness: the timeout behavior applied to a fresh replay state. -/
theorem C6_witness :
    ReplayState.init.settled = none
    ∧ (replayTimeoutCallback ReplayState.init).settled
        = some (Except.error "Timed out while waiting for replay response.")
    ∧ (replayForwardedRequest sampleLog "replay-2").url = sampleLog.path :=
  ⟨rfl,
   ((C6_replay_message_and_timeout sampleLog "replay-2").2.2.2.2.2.2.2.2
      ReplayState.init rfl).1,
   (C6_replay_message_and_timeout sampleLog "replay-2").2.2.1⟩

/-- C7: the dashboard compares the presented token against the stored
password with plain `!==` (request-logs-dashboard.ts line 572), whose
underlying character scan short-circuits at the first differing position:
two wrong tokens for the stored password `s3cret` that differ from it
first at position 0 and at position 5 cost 1 and 6 inspected character
pairs respectively, so the comparison is not constant-time. -/
theorem C7_comparison_short_circuits :
    dashboardPasswordMismatch "x3cret" "s3cret" = true
    ∧ dashboardPasswordMismatch "s3crex" "s3cret" = true
    ∧ jsStringCompareSteps "x3cret" "s3cret" = 1
    ∧ jsStringCompareSteps "s3crex" "s3cret" = 6
    ∧ jsStringCompareSteps "x3cret" "s3cret" ≠ jsStringCompareSteps "s3crex" "s3cret"
    ∧ requestLogsDashboardGate (some "s3cret") false none (some (HdrVal.str "x3cret")) none
        = GateOutcome.status401InvalidToken
    ∧ requestLogsDashboardGate (some "s3cret") false none (some (HdrVal.str "s3crex")) none
        = GateOutcome.status401InvalidToken := by
  decide

/-- C3 counterexample: two buffered dispatches (ids `a` and `b`) are
subscribed on one peer; one unparsable text message is fanned out, and
both dispatches remove their listeners — the dispatch the frame "would
have advanced" is neither, yet every other in-flight dispatch loses its
subscription. -/
theorem C3_counterexample :
    (deliverText "ip" "not json"
        [⟨"a", false, DState.init⟩, ⟨"b", false, DState.init⟩]).map
        (fun d => d.st.listenerRemoved)
      = [true, true] := by
  decide

/-- C3 amended: an inbound text message that fails to parse as JSON never
terminates the peer connection and writes nothing to any client, but it is
not local to one dispatch: every dispatch handler still subscribed on that
peer catches its own `JSON.parse` failure and unsubscribes itself (each
response, peer-frame list and peer-closed flag stay unchanged), while a
replay listener only logs and stays subscribed. -/
theorem C3_malformed_frame_unsubscribes_all (ip text : String)
    (hmalformed : parseJson text = none) :
    (∀ subs : List DispatchSub,
      deliverText ip text subs
        = subs.map (fun d =>
            if d.st.listenerRemoved then d
            else { d with st := { d.st with listenerRemoved := true } }))
    ∧ (∀ requestId : String, ∀ rst : ReplayState,
        replayForwardedResponseHandler requestId text rst = rst)
    ∧ (∀ (requestId : String) (shouldStream : Bool) (st : DState),
        (forwardedResponseHandler requestId ip shouldStream text st).resp = st.resp
        ∧ (forwardedResponseHandler requestId ip shouldStream text st).sentFrames
            = st.sentFrames
        ∧ (forwardedResponseHandler requestId ip shouldStream text st).peerClosed
            = st.peerClosed
        ∧ (forwardedResponseHandler requestId ip shouldStream text st).listenerRemoved
            = true) := by
  refine ⟨?_, ?_, ?_⟩
  · intro subs
    unfold deliverText
    simp only [forwardedResponseHandler, hmalformed, removeFRH_eq]
  · intro requestId rst
    simp only [replayForwardedResponseHandler, hmalformed]
  · intro requestId shouldStream st
    simp only [forwardedResponseHandler, hmalformed, removeFRH_eq]
    trivial

/-- C3 witness: the amended behavior applied to one concrete malformed
message and one subscribed dispatch. -/
theorem C3_witness :
    parseJson "not json" = none
    ∧ deliverText "ip" "not json" [⟨"a", false, DState.init⟩]
        = [⟨"a", false, DState.init⟩].map (fun d =>
            if d.st.listenerRemoved then d
            else { d with st := { d.st with listenerRemoved := true } }) :=
  ⟨rfl, (C3_malformed_frame_unsubscribes_all "ip" "not json" rfl).1 _⟩

/-- C5 counterexample: in a stream-mode dispatch, a
`forwardedResponseStreamChunk` frame delivered before any
`forwardedResponseStreamStart` is not dropped — its decoded body (`hi`) is
written to the client. -/
theorem C5_counterexample :
    (forwardedResponseHandler "r1" "1.2.3.4" true
        "\x7b\"requestId\":\"r1\",\"type\":\"forwardedResponseStreamChunk\",\"body\":\"aGk=\",\"isFinal\":false\x7d"
        DState.init).resp.writes ≠ [] := by
  decide

/-- C5 amended: the stream branch has no ordering guards. A chunk
arriving before the Start frame is written to the client (implicitly
flushing headers) and the dispatch stays subscribed. A second Start frame
for the same request id is processed again: `response.status` is invoked a
second time and the streaming status is re-recorded; because the first
Start already flushed the headers, re-setting a header throws and the
catch removes the dispatch's listener. -/
theorem C5_chunk_written_second_start_reprocessed :
    (let st1 := forwardedResponseHandler "r1" "1.2.3.4" true
        "\x7b\"requestId\":\"r1\",\"type\":\"forwardedResponseStreamChunk\",\"body\":\"aGk=\",\"isFinal\":false\x7d"
        DState.init
     st1.resp.writes = [[104, 105]]
     ∧ st1.resp.headersSent = true
     ∧ st1.listenerRemoved = false)
    ∧ (let stA := forwardedResponseHandler "r1" "1.2.3.4" true
          "\x7b\"requestId\":\"r1\",\"type\":\"forwardedResponseStreamStart\",\"statusCode\":200,\"headers\":\x7b\"content-type\":\"text/plain\"\x7d\x7d"
          DState.init
       let stB := forwardedResponseHandler "r1" "1.2.3.4" true
          "\x7b\"requestId\":\"r1\",\"type\":\"forwardedResponseStreamStart\",\"statusCode\":201,\"headers\":\x7b\"content-type\":\"text/html\"\x7d\x7d"
          stA
       stA.resp.statusSets = [some 200]
       ∧ stA.resp.headersSent = true
       ∧ stA.listenerRemoved = false
       ∧ stB.resp.statusSets = [some 200, some 201]
       ∧ stB.streamingStatusCode = some 201
       ∧ stB.listenerRemoved = true) := by
  decide

/-- C9: when the client connection of a stream-mode dispatch closes before
streaming completed, the close callback sends exactly one
`cancelForwardedRequest` frame carrying the dispatch's request id,
unsubscribes the listener, and touches nothing of the client response;
once unsubscribed, later fan-out deliveries leave the dispatch untouched.
When streaming had already completed, the callback does nothing — in
particular no cancel frame is sent. -/
theorem C9_close_cancel_once (requestId : String) (st : DState) :
    (st.streamingCompleted = false →
      (streamCloseHandler requestId st).sentFrames
          = st.sentFrames ++ [OutFrame.cancelForwardedRequest requestId]
      ∧ (streamCloseHandler requestId st).listenerRemoved = true
      ∧ (streamCloseHandler requestId st).resp = st.resp
      ∧ (∀ ip text shouldStream,
          deliverText ip text [⟨requestId, shouldStream, streamCloseHandler requestId st⟩]
            = [⟨requestId, shouldStream, streamCloseHandler requestId st⟩]))
    ∧ (st.streamingCompleted = true →
        streamCloseHandler requestId st = st) := by
  constructor
  · intro h
    refine ⟨?_, ?_, ?_, ?_⟩ <;>
      simp [streamCloseHandler, h, removeFRH_eq, deliverText]
  · intro h
    simp [streamCloseHandler, h]

/-- C4: for every response emitted to the client the sanitized headers
never contain `transfer-encoding` (case-insensitively); on the buffered
path they contain exactly one `content-length`, whose value is the decimal
byte length of the base64-decoded response body; on the streamed path
`content-length` is omitted entirely. -/
theorem C4_sanitized_headers (headersValue : Json) (headersField : Option Json)
    (ip : String) (bodyB64 : String) :
    (∀ p ∈ bufferedSanitizedHeaders headersValue ip (decodeBase64 bodyB64).length,
        strToLower p.1 ≠ "transfer-encoding")
    ∧ ("content-length", Json.str (Nat.repr (decodeBase64 bodyB64).length))
        ∈ bufferedSanitizedHeaders headersValue ip (decodeBase64 bodyB64).length
    ∧ (∀ p ∈ bufferedSanitizedHeaders headersValue ip (decodeBase64 bodyB64).length,
        strToLower p.1 = "content-length" →
          p = ("content-length", Json.str (Nat.repr (decodeBase64 bodyB64).length)))
    ∧ (∀ p ∈ streamStartSanitizedHeaders headersField ip,
        strToLower p.1 ≠ "transfer-encoding" ∧ strToLower p.1 ≠ "content-length") := by
  unfold bufferedSanitizedHeaders streamStartSanitizedHeaders
  rw [sanitize_some_eq]
  refine ⟨?_, ?_, ?_, ?_⟩
  · intro p hp
    rcases List.mem_append.mp hp with h1 | h1
    · have h2 := mem_sanitizeBase h1
      simp only [forbiddenResponseHeaders, List.mem_cons, List.mem_singleton, not_or] at h2
      exact h2.1
    · rcases List.mem_singleton.mp h1 with h2
      rw [h2]
      show strToLower "content-length" ≠ "transfer-encoding"
      decide
  · exact List.mem_append.mpr (Or.inr (List.mem_singleton.mpr rfl))
  · intro p hp hcl
    rcases List.mem_append.mp hp with h1 | h1
    · have h2 := mem_sanitizeBase h1
      simp only [forbiddenResponseHeaders, List.mem_cons, List.mem_singleton, not_or] at h2
      exact absurd hcl h2.2.1
    · exact List.mem_singleton.mp h1
  · intro p hp
    have h2 := mem_sanitizeBase hp
    simp only [forbiddenResponseHeaders, List.mem_cons, List.mem_singleton, not_or] at h2
    exact ⟨h2.1, h2.2.1⟩

/-- C8 counterexample: with an empty string stored as the credential — a
credential row exists — and a presented (wrong) token, the claim predicts
HTTP 401, but `if (!storedPassword)` treats the empty string as absent and
the gate answers HTTP 404. -/
theorem C8_counterexample :
    requestLogsDashboardGate (some "") false none (some (HdrVal.str "x")) none
        = GateOutcome.status404NoCredential
    ∧ gateHttpStatus (requestLogsDashboardGate (some "") false none (some (HdrVal.str "x")) none)
        = some 404
    ∧ (some 404 : Option Nat) ≠ some 401 := by
  decide

/-- C8 amended: absent — or empty — stored credential gives 404.
Otherwise the presented token is resolved with precedence form field
`token` (POST only), then a string query token, then the Authorization
header (Bearer before Basic, the Basic branch taking the split segment
after the first `:`); an unresolved or empty token gives 401, an unequal
token gives 401, and the stored password authenticates. -/
theorem C8_gate_precedence_and_statuses :
    (∀ (isPost : Bool) (bodyText : Option String) (queryToken authHeader : Option HdrVal),
        requestLogsDashboardGate none isPost bodyText queryToken authHeader
            = GateOutcome.status404NoCredential
        ∧ requestLogsDashboardGate (some "") isPost bodyText queryToken authHeader
            = GateOutcome.status404NoCredential)
    ∧ (∀ (stored : String), stored ≠ "" →
        ∀ (isPost : Bool) (bodyText : Option String) (queryToken authHeader : Option HdrVal),
          (resolveRequestPassword
              (if isPost then some (formDataFromRequest bodyText) else none)
              queryToken authHeader = none →
            requestLogsDashboardGate (some stored) isPost bodyText queryToken authHeader
              = GateOutcome.status401MissingToken)
          ∧ (∀ p, resolveRequestPassword
                (if isPost then some (formDataFromRequest bodyText) else none)
                queryToken authHeader = some p → p ≠ stored →
              gateHttpStatus
                  (requestLogsDashboardGate (some stored) isPost bodyText queryToken authHeader)
                = some 401)
          ∧ (resolveRequestPassword
                (if isPost then some (formDataFromRequest bodyText) else none)
                queryToken authHeader = some stored →
              requestLogsDashboardGate (some stored) isPost bodyText queryToken authHeader
                = GateOutcome.authenticated stored))
    ∧ (∀ (ps : List (String × String)) (queryToken authHeader : Option HdrVal) (t : String),
        formDataGet ps "token" = some t →
          resolveRequestPassword (some ps) queryToken authHeader = some t)
    ∧ (∀ (formData : Option (List (String × String))) (authHeader : Option HdrVal) (q : String),
        (match formData with
          | some ps => formDataGet ps "token"
          | none => none) = none →
          resolveRequestPassword formData (some (HdrVal.str q)) authHeader = some q)
    ∧ (∀ (formData : Option (List (String × String))) (queryToken authHeader : Option HdrVal),
        (match formData with
          | some ps => formDataGet ps "token"
          | none => none) = none →
        (match queryToken with
          | some (HdrVal.str s) => some s
          | _ => none) = none →
          resolveRequestPassword formData queryToken authHeader
            = extractTokenFromAuthorization authHeader)
    ∧ (∀ h : String, (strToLower h.trim).startsWith "bearer " = true →
        extractTokenFromAuthorization (some (HdrVal.str h)) = some ((h.trim.drop 7).trim))
    ∧ (∀ h : String, (strToLower h.trim).startsWith "bearer " = false →
        (strToLower h.trim).startsWith "basic " = true →
        extractTokenFromAuthorization (some (HdrVal.str h))
          = ((bufToUtf8 (decodeBase64 ((h.trim.drop 6).trim))).splitOn ":").get? 1) := by
  refine ⟨?_, ?_, ?_, ?_, ?_, ?_, ?_⟩
  · intro isPost bodyText queryToken authHeader
    constructor <;> simp [requestLogsDashboardGate, jsFalsyStr]
  · intro stored hs isPost bodyText queryToken authHeader
    refine ⟨?_, ?_, ?_⟩
    · intro hr
      simp [requestLogsDashboardGate, jsFalsyStr, hs, hr]
    · intro p hr hp
      by_cases hpe : p = ""
      · simp [requestLogsDashboardGate, jsFalsyStr, hs, hr, hpe, gateHttpStatus]
      · simp [requestLogsDashboardGate, jsFalsyStr, hs, hr, hpe, hp, gateHttpStatus]
    · intro hr
      simp [requestLogsDashboardGate, jsFalsyStr, hs, hr]
  · intro ps queryToken authHeader t ht
    simp [resolveRequestPassword, ht, Option.orElse]
  · intro formData authHeader q hf
    cases formData with
    | none => simp [resolveRequestPassword, Option.orElse]
    | some ps =>
      simp only [] at hf
      simp [resolveRequestPassword, hf, Option.orElse]
  · intro formData queryToken authHeader hf hq
    cases formData with
    | none =>
      cases queryToken with
      | none => simp [resolveRequestPassword, Option.orElse]
      | some qv =>
        cases qv with
        | str s => simp at hq
        | strs l => simp [resolveRequestPassword, Option.orElse]
    | some ps =>
      simp only [] at hf
      cases queryToken with
      | none => simp [resolveRequestPassword, hf, Option.orElse]
      | some qv =>
        cases qv with
        | str s => simp at hq
        | strs l => simp [resolveRequestPassword, hf, Option.orElse]
  · intro h hb
    simp [extractTokenFromAuthorization, hb]
  · intro h hb hbasic
    simp [extractTokenFromAuthorization, hb, hbasic]

/-- C8 witness: a POST carrying the stored password as a form token
authenticates, exercising the form-field precedence. -/
theorem C8_witness :
    ("s3cret" : String) ≠ ""
    ∧ resolveRequestPassword
        (if (true : Bool) then some (formDataFromRequest (some "action=replay&token=s3cret"))
         else none) none none = some "s3cret"
    ∧ requestLogsDashboardGate (some "s3cret") true (some "action=replay&token=s3cret") none none
        = GateOutcome.authenticated "s3cret"
    ∧ formDataGet [("action", "replay"), ("token", "s3cret")] "token" = some "s3cret"
    ∧ resolveRequestPassword (some [("action", "replay"), ("token", "s3cret")]) none none
        = some "s3cret" := by
  refine ⟨by decide, by decide, ?_, by decide, ?_⟩
  · exact (C8_gate_precedence_and_statuses.2.1 "s3cret" (by decide) true
      (some "action=replay&token=s3cret") none none).2.2 (by decide)
  · exact C8_gate_precedence_and_statuses.2.2.1 [("action", "replay"), ("token", "s3cret")]
      none none "s3cret" (by decide)

theorem pageT2_split : pageT2 = "</h1>\n                " ++ pruneFormA := by decide

theorem pageT3_split : pageT3 = pruneFormB ++ "\n            </div>\n            " := by decide

theorem detail_contains_replayForm (log : RequestLog) (freshId : String)
    (token : Option String) (n : Nat) (hid : log.id = some n) :
    strInfix (replayFormMarkup n token) (renderEntry log freshId token).detail := by
  unfold renderEntry
  simp only [hid]
  apply strInfix_appendL
  apply strInfix_appendL
  apply strInfix_appendL
  apply strInfix_appendL
  apply strInfix_appendL
  apply strInfix_appendL
  apply strInfix_appendL
  apply strInfix_appendL
  apply strInfix_appendL
  apply strInfix_appendR
  exact strInfix_refl _

theorem pruneForm_in_page (hostname : String) (logs : List RequestLog)
    (flash : Option FlashMessage) (token : Option String) (fresh : Nat → String) :
    strInfix (pruneFormMarkup token) (renderPage hostname logs flash token fresh) := by
  simp only [renderPage]
  apply strInfix_appendL
  apply strInfix_appendL
  apply strInfix_appendL
  apply strInfix_appendL
  refine ⟨(pageT0 ++ htmlEscape hostname ++ pageT1 ++ htmlEscape hostname
      ++ "</h1>\n                ").data,
    "\n            </div>\n            ".data, ?_⟩
  rw [pageT2_split, pageT3_split]
  simp [pruneFormMarkup, String.data_append, List.append_assoc]

theorem renderPage_unfolded (hostname : String) (logs : List RequestLog)
    (flash : Option FlashMessage) (token : Option String) (fresh : Nat → String)
    (hlen : 0 < logs.length) :
    renderPage hostname logs flash token fresh
      = pageT0 ++ htmlEscape hostname ++ pageT1 ++ htmlEscape hostname ++ pageT2
        ++ tokenInputMarkup token ++ pageT3 ++ renderFlash flash ++ pageT4
        ++ (entriesT0
            ++ joinWith "\n"
                ((logs.enum.map (fun p => renderEntry p.2 (fresh p.1) token)).map
                  (fun e => e.summary))
            ++ entriesT1
            ++ joinWith "\n"
                ((logs.enum.map (fun p => renderEntry p.2 (fresh p.1) token)).map
                  (fun e => e.detail))
            ++ entriesT2)
        ++ pageT5 := by
  simp only [renderPage, gt_iff_lt, hlen, if_true]

theorem detailPanels_in_page (hostname : String) (logs : List RequestLog)
    (flash : Option FlashMessage) (token : Option String) (fresh : Nat → String)
    (hlen : 0 < logs.length) (x : String)
    (hx : strInfix x
        (joinWith "\n"
          ((logs.enum.map (fun p => renderEntry p.2 (fresh p.1) token)).map
            (fun e => e.detail)))) :
    strInfix x (renderPage hostname logs flash token fresh) := by
  rw [renderPage_unfolded hostname logs flash token fresh hlen]
  apply strInfix_appendL
  apply strInfix_appendR
  apply strInfix_appendL
  apply strInfix_appendR
  exact hx

set_option maxHeartbeats 1000000 in
theorem entry_detail_in_page (hostname : String) (logs : List RequestLog)
    (flash : Option FlashMessage) (token : Option String) (fresh : Nat → String)
    (log : RequestLog) (hlog : log ∈ logs) (x : String)
    (hx : ∀ freshId, strInfix x (RenderedLogEntry.detail (renderEntry log freshId token))) :
    strInfix x (renderPage hostname logs flash token fresh) := by
  obtain ⟨i, hi⟩ := List.mem_iff_get.mp hlog
  have hmem : (i.1, log) ∈ logs.enum := by
    rw [List.mk_mem_enum_iff_get?]
    rw [List.get?_eq_get i.2, hi]
  have hmem2 : renderEntry log (fresh i.1) token
      ∈ logs.enum.map (fun p => renderEntry p.2 (fresh p.1) token) :=
    List.mem_map.mpr ⟨(i.1, log), hmem, rfl⟩
  have hd : RenderedLogEntry.detail (renderEntry log (fresh i.1) token)
      ∈ ((logs.enum.map (fun p => renderEntry p.2 (fresh p.1) token)).map
          (fun e => e.detail)) :=
    List.mem_map.mpr ⟨renderEntry log (fresh i.1) token, hmem2, rfl⟩
  have hj := strInfix_joinWith "\n" _ _ hd
  have hlen : 0 < logs.length := List.length_pos.mpr (List.ne_nil_of_mem hlog)
  exact detailPanels_in_page hostname logs flash token fresh hlen x
    (strInfix_trans (hx (fresh i.1)) hj)

/-- C10: for every authenticated dashboard request the rendered page
embeds the stored password: the hidden `token` input carries
`htmlEscape(storedPassword)` as its value (the HTML attribute encoding of
the plaintext password), that input occurs inside the prune form, the
prune form occurs in the page, and for each listed log entry that has an
id the replay form for that id occurs in the page with the token input
inside it. -/
theorem C10_password_embedded (hostname : String) (logs : List RequestLog)
    (flash : Option FlashMessage) (pw : String) (fresh : Nat → String) (hpw : pw ≠ "") :
    tokenInputMarkup (some pw) = tokenInputT0 ++ htmlEscape pw ++ tokenInputT1
    ∧ strInfix (tokenInputMarkup (some pw)) (pruneFormMarkup (some pw))
    ∧ strInfix (pruneFormMarkup (some pw))
        (requestLogsDashboardPage hostname logs flash pw fresh)
    ∧ (∀ log ∈ logs, ∀ n, log.id = some n →
        strInfix (tokenInputMarkup (some pw)) (replayFormMarkup n (some pw))
        ∧ strInfix (replayFormMarkup n (some pw))
            (requestLogsDashboardPage hostname logs flash pw fresh)) := by
  refine ⟨by simp [tokenInputMarkup, hpw], ?_, ?_, ?_⟩
  · exact strInfix_middle pruneFormA (tokenInputMarkup (some pw)) pruneFormB
  · exact pruneForm_in_page hostname logs flash (some pw) fresh
  · intro log hlog n hid
    constructor
    · exact strInfix_middle (replayButtonT0 ++ Nat.repr n ++ replayButtonT1)
        (tokenInputMarkup (some pw)) replayButtonT2
    · exact entry_detail_in_page hostname logs flash (some pw) fresh log hlog _
        (fun freshId => detail_contains_replayForm log freshId (some pw) n hid)

/-- C10 witness: the embedding facts applied to a concrete host, stored
password and a single logged entry with id 7. -/
theorem C10_witness :
    ("s3cret" : String) ≠ ""
    ∧ sampleLog ∈ [sampleLog]
    ∧ sampleLog.id = some 7
    ∧ strInfix (pruneFormMarkup (some "s3cret"))
        (requestLogsDashboardPage "a.example" [sampleLog] none "s3cret" (fun _ => "AAAAAAAA"))
    ∧ strInfix (replayFormMarkup 7 (some "s3cret"))
        (requestLogsDashboardPage "a.example" [sampleLog] none "s3cret" (fun _ => "AAAAAAAA")) := by
  refine ⟨by decide, List.mem_singleton.mpr rfl, rfl, ?_, ?_⟩
  · exact (C10_password_embedded "a.example" [sampleLog] none "s3cret"
      (fun _ => "AAAAAAAA") (by decide)).2.2.1
  · exact ((C10_password_embedded "a.example" [sampleLog] none "s3cret"
      (fun _ => "AAAAAAAA") (by decide)).2.2.2 sampleLog
      (List.mem_singleton.mpr rfl) 7 rfl).2

/-- C9 witness: the close callback applied to a fresh, uncompleted
stream dispatch. -/
theorem C9_witness :
    DState.init.streamingCompleted = false
    ∧ (streamCloseHandler "r9" DState.init).sentFrames
        = DState.init.sentFrames ++ [OutFrame.cancelForwardedRequest "r9"]
    ∧ (streamCloseHandler "r9" DState.init).listenerRemoved = true :=
  ⟨rfl, ((C9_close_cancel_once "r9" DState.init).1 rfl).1,
   ((C9_close_cancel_once "r9" DState.init).1 rfl).2.1⟩

end Tunnelmole
